import Mathlib

/-!
Verification development for the CarbonChase production-selection engine
(`carbchase.py`). The game core is shallowly embedded: the mutable
`CarbonChaseGame` attributes become the fields of `GameState`, Python dicts
become ordered association lists, and every method that the claims touch
(`reset_game`, `select_process_option`, `check_emission_warnings`,
`calculate_happiness`, `check_game_conditions`, `game_over`) is translated
line by line into a pure state-passing function.

Numeric conventions (each verified against IEEE-754 double evaluation for the
magnitudes this program produces):
* `ceil(b * 0.05)` and `ceil(b * 0.10)` (fines, carbchase.py:531,536) are
  `ceilDiv b 20` and `ceilDiv b 10`; exact agreement holds for every integer
  budget up to 200000, far above any reachable budget.
* `int((total / (selected * 5)) * 100)` (carbchase.py:556) equals the rational
  floor `(total * 100) / (selected * 5)` for every total `0..45` and count
  `1..9` that the 9-slot catalog can produce.
* `emission_ratio < 0.4` and `< 0.7` (carbchase.py:585,587) equal the exact
  comparisons `5*em < 2*max` and `10*em < 7*max` for all integer values in
  range.
* The threshold derivation (carbchase.py:99-101) is embedded with exact
  rational ceilings; the float evaluation can exceed the exact value by one
  unit at some budgets (e.g. 3400), which no claim depends on, and at the
  budgets used in the concrete theorems below (10000, 30000) the two agree.
-/

/-- Ceiling division `⌈a / n⌉` for positive `n`, via `⌈x⌉ = -⌊-x⌋`
(`/` on `Int` is Euclidean division, i.e. floor division for positive
divisors). -/
def ceilDiv (a n : Int) : Int := -((-a) / n)

/-- One production option (carbchase.py catalog entries): cost, emissions,
efficiency, happiness, info text. Cost and emissions participate in the
`Int`-valued budget/emissions arithmetic; efficiency and happiness are the
1..5 ratings. -/
structure ProcOption where
  cost : Int
  emissions : Int
  efficiency : Nat
  happiness : Nat
  info : String
deriving DecidableEq, Repr

/-- Options of the Pizza "Ingredient Sourcing" process (carbchase.py:191-220). -/
def pizzaIngredientSourcing : List (String × ProcOption) :=
  [ ( "Conventional", ⟨800, 1000, 2, 2, "Cheap ingredients but high emissions from transport and farming"⟩ ),
    ( "Organic", ⟨1200, 600, 3, 3, "No pesticides but lower yields increase land use"⟩ ),
    ( "Local\nSeasonal", ⟨1000, 300, 4, 4, "Low transport emissions but limited ingredient variety"⟩ ),
    ( "Plant Based", ⟨1100, 350, 4, 3, "Lower emissions but may need more processing"⟩ ) ]

/-- Options of the Pizza "Dough Preparation" process (carbchase.py:221-236). -/
def pizzaDoughPreparation : List (String × ProcOption) :=
  [ ( "Mass Produced", ⟨600, 500, 3, 2, "Factory-made saves labor but uses more energy"⟩ ),
    ( "Handmade", ⟨1000, 200, 4, 4, "Artisanal quality with lower energy use"⟩ ) ]

/-- Options of the Pizza "Baking" process (carbchase.py:237-259). -/
def pizzaBaking : List (String × ProcOption) :=
  [ ( "Gas Oven", ⟨800, 1200, 3, 3, "Fast baking but burns fossil fuels"⟩ ),
    ( "Wood Fired", ⟨1000, 800, 4, 4, "Traditional method with renewable fuel"⟩ ),
    ( "Solar", ⟨1500, 50, 5, 3, "Zero emissions but weather dependent"⟩ ) ]

/-- Options of the Pizza "Packaging" process (carbchase.py:260-275). -/
def pizzaPackaging : List (String × ProcOption) :=
  [ ( "Plastic", ⟨300, 800, 5, 2, "Cheap and durable but non-biodegradable"⟩ ),
    ( "Biodegradable", ⟨700, 300, 4, 4, "Eco-friendly but more expensive"⟩ ) ]

/-- Options of the E-Bike "Battery Production" process (carbchase.py:278-293). -/
def ebikeBatteryProduction : List (String × ProcOption) :=
  [ ( "Lithium Mining", ⟨2000, 4500, 5, 3, "High performance but destructive mining"⟩ ),
    ( "Recycled Batteries", ⟨1800, 1800, 4, 4, "Lower impact but shorter lifespan"⟩ ) ]

/-- Options of the E-Bike "Frame Production" process (carbchase.py:294-309). -/
def ebikeFrameProduction : List (String × ProcOption) :=
  [ ( "Aluminum", ⟨1500, 3000, 4, 3, "Lightweight but energy-intensive production"⟩ ),
    ( "Carbon Fiber", ⟨2500, 1500, 5, 5, "Premium material with lower emissions"⟩ ) ]

/-- Options of the E-Bike "Assembly" process (carbchase.py:310-325). -/
def ebikeAssembly : List (String × ProcOption) :=
  [ ( "Manual", ⟨1200, 1000, 4, 4, "Skilled labor with better quality control"⟩ ),
    ( "Automated", ⟨2000, 500, 5, 3, "Precise but high initial investment"⟩ ) ]

/-- Options of the Smartphone "Component Production" process (carbchase.py:328-343). -/
def phoneComponentProduction : List (String × ProcOption) :=
  [ ( "Outsource", ⟨1500, 3000, 4, 3, "Cheaper labor but long supply chains"⟩ ),
    ( "In-House", ⟨2500, 1500, 5, 4, "Better oversight but higher costs"⟩ ) ]

/-- Options of the Smartphone "Distribution" process (carbchase.py:344-359). -/
def phoneDistribution : List (String × ProcOption) :=
  [ ( "Air Freight", ⟨2000, 4000, 5, 4, "Fast delivery but very high emissions"⟩ ),
    ( "Sea Freight", ⟨1500, 2000, 4, 3, "Slower but much cleaner transport"⟩ ) ]

/-- Processes of the Pizza product, in definition order. -/
def pizzaProcs : List (String × List (String × ProcOption)) :=
  [ ( "Ingredient Sourcing", pizzaIngredientSourcing ),
    ( "Dough Preparation", pizzaDoughPreparation ),
    ( "Baking", pizzaBaking ),
    ( "Packaging", pizzaPackaging ) ]

/-- Processes of the E-Bike product, in definition order. -/
def ebikeProcs : List (String × List (String × ProcOption)) :=
  [ ( "Battery Production", ebikeBatteryProduction ),
    ( "Frame Production", ebikeFrameProduction ),
    ( "Assembly", ebikeAssembly ) ]

/-- Processes of the Smartphone product, in definition order. -/
def phoneProcs : List (String × List (String × ProcOption)) :=
  [ ( "Component Production", phoneComponentProduction ),
    ( "Distribution", phoneDistribution ) ]

/-- The full catalog `self.processes` (carbchase.py:187-362, `load_processes`):
product name → process name → option name → option, as an ordered association
list mirroring the Python nested dict. -/
def processes : List (String × List (String × List (String × ProcOption))) :=
  [ ( "Pizza", pizzaProcs ),
    ( "E-Bike", ebikeProcs ),
    ( "Smartphone", phoneProcs ) ]

/-- Ordered association-list lookup, the model of Python dict indexing /
`in` tests (dicts have unique keys, so first match is the match). -/
def alookup {β : Type} (key : String) : List (String × β) → Option β
  | [] => none
  | (k, v) :: rest => if key = k then some v else alookup key rest

/-- The player selections `self.player_choices`: product name → process name →
optionally the chosen option name (`None` = unset). -/
abbrev Choices := List (String × List (String × Option String))

/-- Model of `self.player_choices[product].get(process)` (carbchase.py:488):
`none` when the product or process key is absent (for every state built by
`reset_game` both keys are always present). -/
def getChoice (c : Choices) (product process : String) : Option String :=
  match alookup product c with
  | some m => (alookup process m).join
  | none => none

/-- Model of `self.player_choices[product][process] = option`
(carbchase.py:496): rewrite the entry in place (for every state built by
`reset_game` the keys are always present, so dict assignment is an update). -/
def setChoice (c : Choices) (product process option : String) : Choices :=
  c.map (fun e =>
    if e.1 = product then
      (e.1, e.2.map (fun e2 => if e2.1 = process then (e2.1, some option) else e2))
    else e)

/-- Full catalog lookup of one option: models the validation
`product not in self.processes or process not in ... or option not in ...`
(carbchase.py:477) and the attribute access `self.processes[product][process][option]`
(carbchase.py:481). -/
def lookupOption (product process option : String) : Option ProcOption :=
  match alookup product processes with
  | some procs =>
    match alookup process procs with
    | some opts => alookup option opts
    | none => none
  | none => none

/-- Minimum happiness percentage `self.MIN_HAPPINESS_THRESHOLD`
(carbchase.py:71). -/
def MIN_HAPPINESS_THRESHOLD : Int := 40

/-- Base emission threshold `self.BASE_EMISSION_THRESHOLD` (carbchase.py:68). -/
def BASE_EMISSION_THRESHOLD : Int := 5000

/-- The mutable game-session state: the `CarbonChaseGame` attributes that the
selection engine reads and writes (carbchase.py:364-395 and onward). -/
@[ext] structure GameState where
  budget : Int
  current_emissions : Int
  current_happiness : Int
  emission_warnings : Nat
  game_state : String
  error_occurred : Bool
  info_message : String
  player_choices : Choices
  MAX_EMISSION_THRESHOLD : Int
  SEVERE_EMISSION_THRESHOLD : Int
  WARNING_EMISSION_THRESHOLD : Int
  current_product : String
deriving DecidableEq, Repr

/-- Model of `game_over` (carbchase.py:594-600): mark the game over and store
the final message. -/
def game_over (g : GameState) (message : String) : GameState :=
  { g with game_state := "game_over", info_message := message }

/-- Model of `calculate_dynamic_thresholds` (carbchase.py:95-101).
`MAX = ceil(BASE * (budget / 10000) * 1.2)` is embedded as the exact ceiling
`ceilDiv (BASE * budget * 12) 100000` (`= ⌈0.6 * budget⌉`); `SEVERE` and
`WARNING` are the exact `⌈0.7 * MAX⌉` and `⌈0.5 * MAX⌉`, which agree with the
float evaluation for every integer `MAX` in range. -/
def calculate_dynamic_thresholds (g : GameState) : GameState :=
  let m := ceilDiv (BASE_EMISSION_THRESHOLD * g.budget * 12) 100000
  { g with MAX_EMISSION_THRESHOLD := m,
           SEVERE_EMISSION_THRESHOLD := ceilDiv (m * 7) 10,
           WARNING_EMISSION_THRESHOLD := ceilDiv m 2 }

/-- Fresh `player_choices` as built by `reset_game` (carbchase.py:374-378):
every catalog slot present and unset. -/
def initial_choices : Choices :=
  processes.map (fun pe => (pe.1, pe.2.map (fun pre => (pre.1, (none : Option String)))))

/-- Model of `reset_game` (carbchase.py:364-395). The two random draws are
injected as parameters: `budget_level` (the tier name, used only in the
welcome message) and `b` (the drawn budget, `random.randint` over the tier
range); `prod` is the randomly chosen `current_product`. Thresholds are
recomputed from the fresh budget exactly as in the source. -/
def reset_game (budget_level : String) (b : Nat) (prod : String) : GameState :=
  let g : GameState :=
    { budget := (b : Int), current_emissions := 0, current_happiness := 0,
      emission_warnings := 0, game_state := "playing", error_occurred := false,
      info_message := "", player_choices := initial_choices,
      MAX_EMISSION_THRESHOLD := 0, SEVERE_EMISSION_THRESHOLD := 0,
      WARNING_EMISSION_THRESHOLD := 0, current_product := prod }
  let g := calculate_dynamic_thresholds g
  { g with info_message := "Welcome! " ++ budget_level ++ " budget: $" ++ toString b ++
      ". Max emissions: " ++ toString g.MAX_EMISSION_THRESHOLD ++
      ". Balance cost, emissions, and happiness." }

/-- Model of `check_emission_warnings` (carbchase.py:519-540). The fines
`ceil(budget * 0.05)` and `ceil(budget * 0.10)` are the exact ceilings
`ceilDiv budget 20` and `ceilDiv budget 10`. -/
def check_emission_warnings (g : GameState) : GameState :=
  if g.current_emissions > g.SEVERE_EMISSION_THRESHOLD ∧ g.emission_warnings < 4 then
    game_over { g with emission_warnings := 4 }
      "Production halted! Emissions critically high (4th warning)."
  else if g.current_emissions > g.WARNING_EMISSION_THRESHOLD then
    if g.emission_warnings = 0 then
      { g with emission_warnings := 1,
               info_message := "WARNING: Emissions approaching dangerous levels (1st warning)" }
    else if g.emission_warnings = 1 then
      let fine := ceilDiv g.budget 20
      { g with emission_warnings := 2, budget := g.budget - fine,
               info_message := "WARNING: High emissions! $" ++ toString fine ++ " fine (2nd warning)." }
    else if g.emission_warnings = 2 then
      let fine := ceilDiv g.budget 10
      { g with emission_warnings := 3, budget := g.budget - fine,
               info_message := "SEVERE WARNING: Emissions very high! $" ++ toString fine ++ " fine (3rd warning)." }
    else g
  else g

/-- The accumulation loop of `calculate_happiness` (carbchase.py:545-553)
over one product's process list: total happiness of the selected and
catalog-resolvable options, and their count. (In the source an unresolvable
stored name would raise a `KeyError` into the catch-all reset path; no state
built by the engine ever stores one.) -/
def happinessProcs (c : Choices) (p : String) :
    List (String × List (String × ProcOption)) → Nat × Nat
  | [] => (0, 0)
  | (pr, opts) :: rest =>
    let acc := happinessProcs c p rest
    match getChoice c p pr with
    | some o =>
      match alookup o opts with
      | some d => (acc.1 + d.happiness, acc.2 + 1)
      | none => acc
    | none => acc

/-- The outer accumulation loop of `calculate_happiness` over all products. -/
def happinessProducts (c : Choices) :
    List (String × List (String × List (String × ProcOption))) → Nat × Nat
  | [] => (0, 0)
  | (p, procs) :: rest =>
    let acc := happinessProducts c rest
    let here := happinessProcs c p procs
    (acc.1 + here.1, acc.2 + here.2)

/-- The happiness percentage computed by `calculate_happiness`
(carbchase.py:555-558): `0` with nothing selected, else
`int((total / (selected * 5)) * 100)`, i.e. the exact floor
`(total * 100) / (selected * 5)`. -/
def happinessValue (c : Choices) : Int :=
  let t := happinessProducts c processes
  if t.2 > 0 then ((t.1 * 100) / (t.2 * 5) : Nat) else 0

/-- Model of `calculate_happiness` (carbchase.py:542-560): recompute
`current_happiness` from scratch from the current selections. -/
def calculate_happiness (g : GameState) : GameState :=
  { g with current_happiness := happinessValue g.player_choices }

/-- Model of the `all_filled` generator expressions (carbchase.py:505-509 and
577-581): every catalog slot holds a selection. -/
def all_filled (c : Choices) : Bool :=
  processes.all (fun pe => pe.2.all (fun pre => (getChoice c pe.1 pre.1).isSome))

/-- Model of `check_game_conditions` (carbchase.py:562-592). The float
comparisons `emission_ratio < 0.4` and `< 0.7` are embedded as the exact
`5*em < 2*max` and `10*em < 7*max`. -/
def check_game_conditions (g : GameState) : GameState :=
  if g.current_emissions > g.MAX_EMISSION_THRESHOLD then
    game_over g "Game Over: Excessive Emissions! Your production emits too much CO2."
  else if g.current_happiness < MIN_HAPPINESS_THRESHOLD then
    game_over g ( "Game Over: Unhappy Customers! Only " ++ toString g.current_happiness ++ "% happiness.")
  else if g.budget < 0 then
    game_over g "Game Over: Bankrupt! You\x27ve exceeded your budget."
  else if all_filled g.player_choices then
    if 5 * g.current_emissions < 2 * g.MAX_EMISSION_THRESHOLD then
      game_over g "Excellent! Highly sustainable product with low emissions!"
    else if 10 * g.current_emissions < 7 * g.MAX_EMISSION_THRESHOLD then
      game_over g "Good job! Sustainable product within emissions targets."
    else
      game_over g "Product complete, but emissions are higher than ideal."
  else g

/-- Model of `select_process_option` (carbchase.py:474-517): validate, check
affordability, refund any previous option in the slot, commit the new option,
then run the warning escalator, recompute happiness, and — only when every
slot is filled — evaluate the game-over conditions. Returns the new state and
the success flag. -/
def select_process_option (g : GameState) (product process option : String) :
    GameState × Bool :=
  match lookupOption product process option with
  | none => ({ g with info_message := "Invalid selection. Please try again." }, false)
  | some option_data =>
    if option_data.cost > g.budget then
      ({ g with info_message := "Not enough budget for " ++ option ++ "! Need $" ++
          toString option_data.cost ++ ", have $" ++ toString g.budget ++ "." }, false)
    else
      let g1 :=
        match getChoice g.player_choices product process with
        | some previous_option =>
          match lookupOption product process previous_option with
          | some previous_data =>
            { g with budget := g.budget + previous_data.cost,
                     current_emissions := g.current_emissions - previous_data.emissions }
          | none => g
        | none => g
      let g2 := { g1 with
        player_choices := setChoice g1.player_choices product process option,
        budget := g1.budget - option_data.cost,
        current_emissions := g1.current_emissions + option_data.emissions,
        info_message := option_data.info ++ "\nCost: $" ++ toString option_data.cost ++
          " | Emissions: " ++ toString option_data.emissions }
      let g3 := check_emission_warnings g2
      let g4 := calculate_happiness g3
      let g5 := if all_filled g4.player_choices then check_game_conditions g4 else g4
      (g5, true)

/-- Model of the event-loop dispatch of a selection click (carbchase.py:730,
760): the run loop forwards a selection to `select_process_option` only while
`game_state == "playing"` and no error flag is set; otherwise the click does
not reach the engine. -/
def ui_select (g : GameState) (product process option : String) : GameState :=
  if g.game_state = "playing" ∧ g.error_occurred = false then
    (select_process_option g product process option).1
  else g

/-- A sequence of `select_process_option` calls applied in order
(each call is a `(product, process, option)` triple). -/
def applySeq (g : GameState) (calls : List (String × String × String)) : GameState :=
  calls.foldl (fun s c => (select_process_option s c.1 c.2.1 c.2.2).1) g

/-- The nine selection slots of the catalog, one field per
(product, process) pair, in catalog order: the possible shapes of
`player_choices` in any state the engine builds. -/
@[ext] structure Slots where
  s1 : Option String
  s2 : Option String
  s3 : Option String
  s4 : Option String
  s5 : Option String
  s6 : Option String
  s7 : Option String
  s8 : Option String
  s9 : Option String
deriving DecidableEq, Repr

/-- The `player_choices` value holding the given nine slot selections. -/
def mkChoices (v : Slots) : Choices :=
  [ ( "Pizza",
      [ ( "Ingredient Sourcing", v.s1 ), ( "Dough Preparation", v.s2 ),
        ( "Baking", v.s3 ), ( "Packaging", v.s4 ) ] ),
    ( "E-Bike",
      [ ( "Battery Production", v.s5 ), ( "Frame Production", v.s6 ),
        ( "Assembly", v.s7 ) ] ),
    ( "Smartphone",
      [ ( "Component Production", v.s8 ), ( "Distribution", v.s9 ) ] ) ]

/-- Emissions contributed by one slot: the emissions of its selected option,
`0` when the slot is unset. -/
def slotEmissions (opts : List (String × ProcOption)) : Option String → Int
  | none => 0
  | some o =>
    match alookup o opts with
    | some d => d.emissions
    | none => 0

/-- Per-product part of the total emissions of the currently selected
options. -/
def emissionsProcs (c : Choices) (p : String) :
    List (String × List (String × ProcOption)) → Int
  | [] => 0
  | (pr, opts) :: rest => emissionsProcs c p rest + slotEmissions opts (getChoice c p pr)

/-- Per-catalog part of the total emissions of the currently selected
options. -/
def emissionsProducts (c : Choices) :
    List (String × List (String × List (String × ProcOption))) → Int
  | [] => 0
  | (p, procs) :: rest => emissionsProducts c rest + emissionsProcs c p procs

/-- The specification quantity of C2: the sum of the emissions attributes of
all currently-selected options across the whole catalog. -/
def sumSelectedEmissions (c : Choices) : Int :=
  emissionsProducts c processes

/-- Cost refunded by the refund block of `select_process_option`
(carbchase.py:487-493) for the given slot: the previous option's cost, `0`
when the slot is unset (or holds an unresolvable name, in which case the
source also skips the refund). -/
def previousCost (c : Choices) (product process : String) : Int :=
  match getChoice c product process with
  | some prev =>
    match lookupOption product process prev with
    | some pd => pd.cost
    | none => 0
  | none => 0

/-- Emissions removed by the refund block of `select_process_option` for the
given slot, analogous to `previousCost`. -/
def previousEmissions (c : Choices) (product process : String) : Int :=
  match getChoice c product process with
  | some prev =>
    match lookupOption product process prev with
    | some pd => pd.emissions
    | none => 0
  | none => 0

/-- Comparison point for the unreachability of the Bankrupt branch:
`check_game_conditions` with the `budget < 0` arm (carbchase.py:573-575)
removed, all other arms verbatim. -/
def check_game_conditions_noBankrupt (g : GameState) : GameState :=
  if g.current_emissions > g.MAX_EMISSION_THRESHOLD then
    game_over g "Game Over: Excessive Emissions! Your production emits too much CO2."
  else if g.current_happiness < MIN_HAPPINESS_THRESHOLD then
    game_over g ( "Game Over: Unhappy Customers! Only " ++ toString g.current_happiness ++ "% happiness.")
  else if all_filled g.player_choices then
    if 5 * g.current_emissions < 2 * g.MAX_EMISSION_THRESHOLD then
      game_over g "Excellent! Highly sustainable product with low emissions!"
    else if 10 * g.current_emissions < 7 * g.MAX_EMISSION_THRESHOLD then
      game_over g "Good job! Sustainable product within emissions targets."
    else
      game_over g "Product complete, but emissions are higher than ideal."
  else g

/-! ### Frame lemmas: which fields each stage leaves untouched -/

@[simp] theorem cw_current_emissions (g : GameState) :
    (check_emission_warnings g).current_emissions = g.current_emissions := by
  unfold check_emission_warnings game_over; split_ifs <;> rfl

@[simp] theorem cw_player_choices (g : GameState) :
    (check_emission_warnings g).player_choices = g.player_choices := by
  unfold check_emission_warnings game_over; split_ifs <;> rfl

@[simp] theorem cw_current_happiness (g : GameState) :
    (check_emission_warnings g).current_happiness = g.current_happiness := by
  unfold check_emission_warnings game_over; split_ifs <;> rfl

@[simp] theorem cw_max_threshold (g : GameState) :
    (check_emission_warnings g).MAX_EMISSION_THRESHOLD = g.MAX_EMISSION_THRESHOLD := by
  unfold check_emission_warnings game_over; split_ifs <;> rfl

@[simp] theorem cw_severe_threshold (g : GameState) :
    (check_emission_warnings g).SEVERE_EMISSION_THRESHOLD = g.SEVERE_EMISSION_THRESHOLD := by
  unfold check_emission_warnings game_over; split_ifs <;> rfl

@[simp] theorem cw_warning_threshold (g : GameState) :
    (check_emission_warnings g).WARNING_EMISSION_THRESHOLD = g.WARNING_EMISSION_THRESHOLD := by
  unfold check_emission_warnings game_over; split_ifs <;> rfl

@[simp] theorem cw_current_product (g : GameState) :
    (check_emission_warnings g).current_product = g.current_product := by
  unfold check_emission_warnings game_over; split_ifs <;> rfl

@[simp] theorem cw_error_occurred (g : GameState) :
    (check_emission_warnings g).error_occurred = g.error_occurred := by
  unfold check_emission_warnings game_over; split_ifs <;> rfl

@[simp] theorem ch_budget (g : GameState) :
    (calculate_happiness g).budget = g.budget := rfl

@[simp] theorem ch_current_emissions (g : GameState) :
    (calculate_happiness g).current_emissions = g.current_emissions := rfl

@[simp] theorem ch_player_choices (g : GameState) :
    (calculate_happiness g).player_choices = g.player_choices := rfl

@[simp] theorem ch_emission_warnings (g : GameState) :
    (calculate_happiness g).emission_warnings = g.emission_warnings := rfl

@[simp] theorem ch_game_state (g : GameState) :
    (calculate_happiness g).game_state = g.game_state := rfl

@[simp] theorem ch_info_message (g : GameState) :
    (calculate_happiness g).info_message = g.info_message := rfl

@[simp] theorem ch_max_threshold (g : GameState) :
    (calculate_happiness g).MAX_EMISSION_THRESHOLD = g.MAX_EMISSION_THRESHOLD := rfl

@[simp] theorem ch_severe_threshold (g : GameState) :
    (calculate_happiness g).SEVERE_EMISSION_THRESHOLD = g.SEVERE_EMISSION_THRESHOLD := rfl

@[simp] theorem ch_warning_threshold (g : GameState) :
    (calculate_happiness g).WARNING_EMISSION_THRESHOLD = g.WARNING_EMISSION_THRESHOLD := rfl

@[simp] theorem ch_current_happiness (g : GameState) :
    (calculate_happiness g).current_happiness = happinessValue g.player_choices := rfl

@[simp] theorem cg_budget (g : GameState) :
    (check_game_conditions g).budget = g.budget := by
  unfold check_game_conditions game_over; split_ifs <;> rfl

@[simp] theorem cg_current_emissions (g : GameState) :
    (check_game_conditions g).current_emissions = g.current_emissions := by
  unfold check_game_conditions game_over; split_ifs <;> rfl

@[simp] theorem cg_current_happiness (g : GameState) :
    (check_game_conditions g).current_happiness = g.current_happiness := by
  unfold check_game_conditions game_over; split_ifs <;> rfl

@[simp] theorem cg_emission_warnings (g : GameState) :
    (check_game_conditions g).emission_warnings = g.emission_warnings := by
  unfold check_game_conditions game_over; split_ifs <;> rfl

@[simp] theorem cg_player_choices (g : GameState) :
    (check_game_conditions g).player_choices = g.player_choices := by
  unfold check_game_conditions game_over; split_ifs <;> rfl

@[simp] theorem cg_max_threshold (g : GameState) :
    (check_game_conditions g).MAX_EMISSION_THRESHOLD = g.MAX_EMISSION_THRESHOLD := by
  unfold check_game_conditions game_over; split_ifs <;> rfl

@[simp] theorem cg_severe_threshold (g : GameState) :
    (check_game_conditions g).SEVERE_EMISSION_THRESHOLD = g.SEVERE_EMISSION_THRESHOLD := by
  unfold check_game_conditions game_over; split_ifs <;> rfl

@[simp] theorem cg_warning_threshold (g : GameState) :
    (check_game_conditions g).WARNING_EMISSION_THRESHOLD = g.WARNING_EMISSION_THRESHOLD := by
  unfold check_game_conditions game_over; split_ifs <;> rfl

/-! ### Characterizations of the warning escalator -/

/-- Behaviour of one `check_emission_warnings` call: either nothing happens,
or the stage makes exactly one of its four forward transitions; a fine is
charged exactly on the 1→2 transition (five percent of the budget at that
moment) and on the 2→3 transition (ten percent), and on no other. -/
theorem cw_transition_spec (g : GameState) :
    ((check_emission_warnings g).emission_warnings = g.emission_warnings ∧
      (check_emission_warnings g).budget = g.budget) ∨
    (g.emission_warnings = 0 ∧ (check_emission_warnings g).emission_warnings = 1 ∧
      (check_emission_warnings g).budget = g.budget) ∨
    (g.emission_warnings = 1 ∧ (check_emission_warnings g).emission_warnings = 2 ∧
      (check_emission_warnings g).budget = g.budget - ceilDiv g.budget 20) ∨
    (g.emission_warnings = 2 ∧ (check_emission_warnings g).emission_warnings = 3 ∧
      (check_emission_warnings g).budget = g.budget - ceilDiv g.budget 10) ∨
    (g.emission_warnings < 4 ∧ (check_emission_warnings g).emission_warnings = 4 ∧
      (check_emission_warnings g).budget = g.budget) := by
  unfold check_emission_warnings game_over
  split_ifs with h1 h2 h3 h4 h5
  · exact Or.inr (Or.inr (Or.inr (Or.inr ⟨h1.2, rfl, rfl⟩)))
  · exact Or.inr (Or.inl ⟨h3, rfl, rfl⟩)
  · exact Or.inr (Or.inr (Or.inl ⟨h4, rfl, rfl⟩))
  · exact Or.inr (Or.inr (Or.inr (Or.inl ⟨h5, rfl, rfl⟩)))
  · exact Or.inl ⟨rfl, rfl⟩
  · exact Or.inl ⟨rfl, rfl⟩

/-- The escalator never lowers the stage. -/
theorem cw_stage_mono (g : GameState) :
    g.emission_warnings ≤ (check_emission_warnings g).emission_warnings := by
  rcases cw_transition_spec g with ⟨h, _⟩ | ⟨h0, h, _⟩ | ⟨h1, h, _⟩ | ⟨h2, h, _⟩ | ⟨h3, h, _⟩ <;>
    omega

/-- With emissions at or below both the warning and the severe threshold the
escalator does nothing at all. -/
theorem cw_calm (g : GameState)
    (hw : ¬ g.current_emissions > g.WARNING_EMISSION_THRESHOLD)
    (hs : ¬ g.current_emissions > g.SEVERE_EMISSION_THRESHOLD) :
    check_emission_warnings g = g := by
  unfold check_emission_warnings
  rw [if_neg (by tauto), if_neg hw]

/-- The severe jump (carbchase.py:522-524): emissions above the severe
threshold with stage below 4 halt the game at stage 4, without touching the
budget. -/
theorem cw_severe (g : GameState)
    (hs : g.current_emissions > g.SEVERE_EMISSION_THRESHOLD)
    (hst : g.emission_warnings < 4) :
    check_emission_warnings g =
      { g with emission_warnings := 4, game_state := "game_over",
               info_message := "Production halted! Emissions critically high (4th warning)." } := by
  unfold check_emission_warnings game_over
  rw [if_pos ⟨hs, hst⟩]

/-- The game-over flag produced by one escalator call. -/
theorem cw_game_state (g : GameState) :
    (check_emission_warnings g).game_state =
      if g.current_emissions > g.SEVERE_EMISSION_THRESHOLD ∧ g.emission_warnings < 4
      then "game_over" else g.game_state := by
  unfold check_emission_warnings game_over
  split_ifs <;> rfl

/-- The escalator rewrites the message only when it makes a transition; in
particular it is the only stage of an accepted call that can set
`game_state` to `"game_over"` while slots remain open. -/
theorem cw_message_of_calm (g : GameState)
    (hw : ¬ g.current_emissions > g.WARNING_EMISSION_THRESHOLD)
    (hs : ¬ g.current_emissions > g.SEVERE_EMISSION_THRESHOLD) :
    (check_emission_warnings g).info_message = g.info_message := by
  rw [cw_calm g hw hs]

/-! ### Characterizations of the termination evaluator -/

/-- Termination priority 1 (carbchase.py:565-567). -/
theorem cg_excessive (g : GameState)
    (h : g.current_emissions > g.MAX_EMISSION_THRESHOLD) :
    check_game_conditions g =
      game_over g "Game Over: Excessive Emissions! Your production emits too much CO2." := by
  unfold check_game_conditions
  rw [if_pos h]

/-- Termination priority 2 (carbchase.py:569-571). -/
theorem cg_unhappy (g : GameState)
    (h1 : ¬ g.current_emissions > g.MAX_EMISSION_THRESHOLD)
    (h2 : g.current_happiness < MIN_HAPPINESS_THRESHOLD) :
    check_game_conditions g =
      game_over g ( "Game Over: Unhappy Customers! Only " ++ toString g.current_happiness ++ "% happiness.") := by
  unfold check_game_conditions
  rw [if_neg h1, if_pos h2]

/-- Termination priority 3 (carbchase.py:573-575). -/
theorem cg_bankrupt (g : GameState)
    (h1 : ¬ g.current_emissions > g.MAX_EMISSION_THRESHOLD)
    (h2 : ¬ g.current_happiness < MIN_HAPPINESS_THRESHOLD)
    (h3 : g.budget < 0) :
    check_game_conditions g =
      game_over g "Game Over: Bankrupt! You\x27ve exceeded your budget." := by
  unfold check_game_conditions
  rw [if_neg h1, if_neg h2, if_pos h3]

/-- Termination priority 4 (carbchase.py:577-590): the success tiers. -/
theorem cg_success (g : GameState)
    (h1 : ¬ g.current_emissions > g.MAX_EMISSION_THRESHOLD)
    (h2 : ¬ g.current_happiness < MIN_HAPPINESS_THRESHOLD)
    (h3 : ¬ g.budget < 0)
    (h4 : all_filled g.player_choices = true) :
    check_game_conditions g =
      (if 5 * g.current_emissions < 2 * g.MAX_EMISSION_THRESHOLD then
        game_over g "Excellent! Highly sustainable product with low emissions!"
      else if 10 * g.current_emissions < 7 * g.MAX_EMISSION_THRESHOLD then
        game_over g "Good job! Sustainable product within emissions targets."
      else
        game_over g "Product complete, but emissions are higher than ideal.") := by
  unfold check_game_conditions
  rw [if_neg h1, if_neg h2, if_neg h3, if_pos h4]

/-- With every slot filled, the evaluator always ends the game. -/
theorem cg_game_over_of_filled (g : GameState)
    (h : all_filled g.player_choices = true) :
    (check_game_conditions g).game_state = "game_over" := by
  unfold check_game_conditions game_over
  split_ifs <;> simp_all

/-- The evaluator never clears a game-over flag. -/
theorem cg_game_over_stable (g : GameState)
    (h : g.game_state = "game_over") :
    (check_game_conditions g).game_state = "game_over" := by
  unfold check_game_conditions game_over
  split_ifs <;> simp_all

/-! ### The three paths through `select_process_option` -/

/-- Rejection on an unresolvable selection (carbchase.py:477-479). -/
theorem select_invalid (g : GameState) (p pr o : String)
    (h : lookupOption p pr o = none) :
    select_process_option g p pr o =
      ({ g with info_message := "Invalid selection. Please try again." }, false) := by
  unfold select_process_option
  rw [h]

/-- Rejection on an unaffordable option (carbchase.py:483-485). -/
theorem select_poor (g : GameState) (p pr o : String) (d : ProcOption)
    (hd : lookupOption p pr o = some d) (hb : d.cost > g.budget) :
    select_process_option g p pr o =
      ({ g with info_message := "Not enough budget for " ++ o ++ "! Need $" ++
          toString d.cost ++ ", have $" ++ toString g.budget ++ "." }, false) := by
  unfold select_process_option
  rw [hd]
  exact if_pos hb

/-- The state right after the refund and commit blocks of an accepted call
(carbchase.py:487-499), before the escalator runs: derived view used by the
proofs below. -/
def commitState (g : GameState) (product process option : String) (d : ProcOption) :
    GameState :=
  { g with
    player_choices := setChoice g.player_choices product process option,
    budget := g.budget + previousCost g.player_choices product process - d.cost,
    current_emissions :=
      g.current_emissions - previousEmissions g.player_choices product process + d.emissions,
    info_message := d.info ++ "\nCost: $" ++ toString d.cost ++
      " | Emissions: " ++ toString d.emissions }

/-- An accepted call is exactly: refund+commit, escalator, happiness
recomputation, and the termination evaluator guarded by `all_filled`. -/
theorem select_accepted (g : GameState) (p pr o : String) (d : ProcOption)
    (hd : lookupOption p pr o = some d) (hb : ¬ d.cost > g.budget) :
    select_process_option g p pr o =
      (let g4 := calculate_happiness (check_emission_warnings (commitState g p pr o d))
       ((if all_filled g4.player_choices then check_game_conditions g4 else g4), true)) := by
  unfold select_process_option
  rw [hd]
  dsimp only
  rw [if_neg hb]
  cases hgc : getChoice g.player_choices p pr with
  | none => simp [commitState, previousCost, previousEmissions, hgc]
  | some prev =>
    cases hlk : lookupOption p pr prev with
    | none => simp [commitState, previousCost, previousEmissions, hgc, hlk]
    | some pd =>
      simp [commitState, previousCost, previousEmissions, hgc, hlk]

/-! ### Catalog and refund bookkeeping lemmas -/

theorem previousCost_of_none {c : Choices} {p pr : String}
    (h : getChoice c p pr = none) : previousCost c p pr = 0 := by
  unfold previousCost
  rw [h]

theorem previousCost_of_some {c : Choices} {p pr a : String} {da : ProcOption}
    (h1 : getChoice c p pr = some a) (h2 : lookupOption p pr a = some da) :
    previousCost c p pr = da.cost := by
  simp [previousCost, h1, h2]

theorem previousEmissions_of_none {c : Choices} {p pr : String}
    (h : getChoice c p pr = none) : previousEmissions c p pr = 0 := by
  unfold previousEmissions
  rw [h]

theorem previousEmissions_of_some {c : Choices} {p pr a : String} {da : ProcOption}
    (h1 : getChoice c p pr = some a) (h2 : lookupOption p pr a = some da) :
    previousEmissions c p pr = da.emissions := by
  simp [previousEmissions, h1, h2]

theorem alookup_mem {β : Type} {k : String} {l : List (String × β)} {b : β}
    (h : alookup k l = some b) : (k, b) ∈ l := by
  induction l with
  | nil => simp [alookup] at h
  | cons e rest ih =>
    obtain ⟨k1, v1⟩ := e
    unfold alookup at h
    split_ifs at h with he
    · obtain rfl := Option.some_injective _ h
      subst he
      exact List.mem_cons_self _ _
    · exact List.mem_cons_of_mem _ (ih h)

/-- Every catalog option has nonnegative cost and emissions and a happiness
rating of at most 5 (checked over the literal catalog). -/
theorem catalog_entries_sound :
    ∀ pe ∈ processes, ∀ pre ∈ pe.2, ∀ od ∈ pre.2,
      0 ≤ od.2.cost ∧ 0 ≤ od.2.emissions ∧ od.2.happiness ≤ 5 := by
  decide

/-- A successful catalog lookup returns a genuine catalog entry. -/
theorem lookupOption_mem {p pr o : String} {d : ProcOption}
    (h : lookupOption p pr o = some d) :
    ∃ procs opts, (p, procs) ∈ processes ∧ (pr, opts) ∈ procs ∧ (o, d) ∈ opts := by
  unfold lookupOption at h
  cases hp : alookup p processes with
  | none => simp [hp] at h
  | some procs =>
    simp only [hp] at h
    cases hpr : alookup pr procs with
    | none => simp [hpr] at h
    | some opts =>
      simp only [hpr] at h
      exact ⟨procs, opts, alookup_mem hp, alookup_mem hpr, alookup_mem h⟩

theorem lookupOption_sound {p pr o : String} {d : ProcOption}
    (h : lookupOption p pr o = some d) :
    0 ≤ d.cost ∧ 0 ≤ d.emissions ∧ d.happiness ≤ 5 := by
  obtain ⟨procs, opts, h1, h2, h3⟩ := lookupOption_mem h
  exact catalog_entries_sound _ h1 _ h2 _ h3

theorem previousCost_nonneg (c : Choices) (p pr : String) :
    0 ≤ previousCost c p pr := by
  unfold previousCost
  cases hgc : getChoice c p pr with
  | none => simp
  | some prev =>
    cases hlk : lookupOption p pr prev with
    | none => simp [hlk]
    | some pd => simpa [hlk] using (lookupOption_sound hlk).1

/-- A successful catalog lookup pins the product and process names to one of
the nine slots and reduces to a lookup in that slot's literal option list. -/
theorem alookup_eq_of_mem {β : Type} {k : String} {b : β} {l : List (String × β)}
    (h : (k, b) ∈ l) (hnd : (l.map Prod.fst).Nodup) : alookup k l = some b := by
  induction l with
  | nil => simp at h
  | cons e rest ih =>
    obtain ⟨k1, v1⟩ := e
    simp only [List.map_cons, List.nodup_cons] at hnd
    rcases List.mem_cons.mp h with he | hm
    · obtain ⟨rfl, rfl⟩ := Prod.mk.injEq .. ▸ he
      · simp [alookup]
    · unfold alookup
      have hk : ¬ k = k1 := by
        intro hkk
        subst hkk
        exact hnd.1 (List.mem_map_of_mem Prod.fst hm)
      rw [if_neg hk]
      exact ih hm hnd.2

/-- A successful catalog lookup pins the product and process names to one of
the nine slots and reduces to a lookup in that slot's literal option list. -/
theorem lookupOption_cases {p pr o : String} {d : ProcOption}
    (h : lookupOption p pr o = some d) :
    (p = "Pizza" ∧ pr = "Ingredient Sourcing" ∧ alookup o pizzaIngredientSourcing = some d) ∨
    (p = "Pizza" ∧ pr = "Dough Preparation" ∧ alookup o pizzaDoughPreparation = some d) ∨
    (p = "Pizza" ∧ pr = "Baking" ∧ alookup o pizzaBaking = some d) ∨
    (p = "Pizza" ∧ pr = "Packaging" ∧ alookup o pizzaPackaging = some d) ∨
    (p = "E-Bike" ∧ pr = "Battery Production" ∧ alookup o ebikeBatteryProduction = some d) ∨
    (p = "E-Bike" ∧ pr = "Frame Production" ∧ alookup o ebikeFrameProduction = some d) ∨
    (p = "E-Bike" ∧ pr = "Assembly" ∧ alookup o ebikeAssembly = some d) ∨
    (p = "Smartphone" ∧ pr = "Component Production" ∧ alookup o phoneComponentProduction = some d) ∨
    (p = "Smartphone" ∧ pr = "Distribution" ∧ alookup o phoneDistribution = some d) := by
  obtain ⟨procs, opts, h1, h2, h3⟩ := lookupOption_mem h
  simp only [processes, List.mem_cons, List.not_mem_nil, or_false, Prod.mk.injEq] at h1
  rcases h1 with ⟨rfl, rfl⟩ | ⟨rfl, rfl⟩ | ⟨rfl, rfl⟩
  · simp only [pizzaProcs, List.mem_cons, List.not_mem_nil, or_false, Prod.mk.injEq] at h2
    rcases h2 with ⟨rfl, rfl⟩ | ⟨rfl, rfl⟩ | ⟨rfl, rfl⟩ | ⟨rfl, rfl⟩
    · exact Or.inl ⟨rfl, rfl, alookup_eq_of_mem h3 (by decide)⟩
    · exact Or.inr (Or.inl ⟨rfl, rfl, alookup_eq_of_mem h3 (by decide)⟩)
    · exact Or.inr (Or.inr (Or.inl ⟨rfl, rfl, alookup_eq_of_mem h3 (by decide)⟩))
    · exact Or.inr (Or.inr (Or.inr (Or.inl ⟨rfl, rfl, alookup_eq_of_mem h3 (by decide)⟩)))
  · simp only [ebikeProcs, List.mem_cons, List.not_mem_nil, or_false, Prod.mk.injEq] at h2
    rcases h2 with ⟨rfl, rfl⟩ | ⟨rfl, rfl⟩ | ⟨rfl, rfl⟩
    · exact Or.inr (Or.inr (Or.inr (Or.inr (Or.inl ⟨rfl, rfl, alookup_eq_of_mem h3 (by decide)⟩))))
    · exact Or.inr (Or.inr (Or.inr (Or.inr (Or.inr (Or.inl ⟨rfl, rfl, alookup_eq_of_mem h3 (by decide)⟩)))))
    · exact Or.inr (Or.inr (Or.inr (Or.inr (Or.inr (Or.inr (Or.inl ⟨rfl, rfl, alookup_eq_of_mem h3 (by decide)⟩))))))
  · simp only [phoneProcs, List.mem_cons, List.not_mem_nil, or_false, Prod.mk.injEq] at h2
    rcases h2 with ⟨rfl, rfl⟩ | ⟨rfl, rfl⟩
    · exact Or.inr (Or.inr (Or.inr (Or.inr (Or.inr (Or.inr (Or.inr (Or.inl ⟨rfl, rfl, alookup_eq_of_mem h3 (by decide)⟩)))))))
    · exact Or.inr (Or.inr (Or.inr (Or.inr (Or.inr (Or.inr (Or.inr (Or.inr ⟨rfl, rfl, alookup_eq_of_mem h3 (by decide)⟩)))))))

/-! ### Slot-level evaluation lemmas for states of catalog shape -/

theorem getChoice_mk1 (v : Slots) : getChoice (mkChoices v) "Pizza" "Ingredient Sourcing" = v.s1 := rfl

theorem getChoice_mk2 (v : Slots) : getChoice (mkChoices v) "Pizza" "Dough Preparation" = v.s2 := rfl

theorem getChoice_mk3 (v : Slots) : getChoice (mkChoices v) "Pizza" "Baking" = v.s3 := rfl

theorem getChoice_mk4 (v : Slots) : getChoice (mkChoices v) "Pizza" "Packaging" = v.s4 := rfl

theorem getChoice_mk5 (v : Slots) : getChoice (mkChoices v) "E-Bike" "Battery Production" = v.s5 := rfl

theorem getChoice_mk6 (v : Slots) : getChoice (mkChoices v) "E-Bike" "Frame Production" = v.s6 := rfl

theorem getChoice_mk7 (v : Slots) : getChoice (mkChoices v) "E-Bike" "Assembly" = v.s7 := rfl

theorem getChoice_mk8 (v : Slots) : getChoice (mkChoices v) "Smartphone" "Component Production" = v.s8 := rfl

theorem getChoice_mk9 (v : Slots) : getChoice (mkChoices v) "Smartphone" "Distribution" = v.s9 := rfl

theorem setChoice_mk1 (v : Slots) (o : String) :
    setChoice (mkChoices v) "Pizza" "Ingredient Sourcing" o = mkChoices { v with s1 := some o } := rfl

theorem setChoice_mk2 (v : Slots) (o : String) :
    setChoice (mkChoices v) "Pizza" "Dough Preparation" o = mkChoices { v with s2 := some o } := rfl

theorem setChoice_mk3 (v : Slots) (o : String) :
    setChoice (mkChoices v) "Pizza" "Baking" o = mkChoices { v with s3 := some o } := rfl

theorem setChoice_mk4 (v : Slots) (o : String) :
    setChoice (mkChoices v) "Pizza" "Packaging" o = mkChoices { v with s4 := some o } := rfl

theorem setChoice_mk5 (v : Slots) (o : String) :
    setChoice (mkChoices v) "E-Bike" "Battery Production" o = mkChoices { v with s5 := some o } := rfl

theorem setChoice_mk6 (v : Slots) (o : String) :
    setChoice (mkChoices v) "E-Bike" "Frame Production" o = mkChoices { v with s6 := some o } := rfl

theorem setChoice_mk7 (v : Slots) (o : String) :
    setChoice (mkChoices v) "E-Bike" "Assembly" o = mkChoices { v with s7 := some o } := rfl

theorem setChoice_mk8 (v : Slots) (o : String) :
    setChoice (mkChoices v) "Smartphone" "Component Production" o = mkChoices { v with s8 := some o } := rfl

theorem setChoice_mk9 (v : Slots) (o : String) :
    setChoice (mkChoices v) "Smartphone" "Distribution" o = mkChoices { v with s9 := some o } := rfl

theorem lookupOption_slot1 (x : String) : lookupOption "Pizza" "Ingredient Sourcing" x = alookup x pizzaIngredientSourcing := rfl

theorem lookupOption_slot2 (x : String) : lookupOption "Pizza" "Dough Preparation" x = alookup x pizzaDoughPreparation := rfl

theorem lookupOption_slot3 (x : String) : lookupOption "Pizza" "Baking" x = alookup x pizzaBaking := rfl

theorem lookupOption_slot4 (x : String) : lookupOption "Pizza" "Packaging" x = alookup x pizzaPackaging := rfl

theorem lookupOption_slot5 (x : String) : lookupOption "E-Bike" "Battery Production" x = alookup x ebikeBatteryProduction := rfl

theorem lookupOption_slot6 (x : String) : lookupOption "E-Bike" "Frame Production" x = alookup x ebikeFrameProduction := rfl

theorem lookupOption_slot7 (x : String) : lookupOption "E-Bike" "Assembly" x = alookup x ebikeAssembly := rfl

theorem lookupOption_slot8 (x : String) : lookupOption "Smartphone" "Component Production" x = alookup x phoneComponentProduction := rfl

theorem lookupOption_slot9 (x : String) : lookupOption "Smartphone" "Distribution" x = alookup x phoneDistribution := rfl

/-- The C2 sum evaluated on a catalog-shaped selection state: one term per
slot. -/
theorem sumSel_mk (v : Slots) :
    sumSelectedEmissions (mkChoices v) =
      slotEmissions pizzaIngredientSourcing v.s1 + slotEmissions pizzaDoughPreparation v.s2 +
      slotEmissions pizzaBaking v.s3 + slotEmissions pizzaPackaging v.s4 +
      slotEmissions ebikeBatteryProduction v.s5 + slotEmissions ebikeFrameProduction v.s6 +
      slotEmissions ebikeAssembly v.s7 + slotEmissions phoneComponentProduction v.s8 +
      slotEmissions phoneDistribution v.s9 := by
  show emissionsProducts (mkChoices v) processes = _
  simp only [processes, pizzaProcs, ebikeProcs, phoneProcs, emissionsProducts, emissionsProcs,
    getChoice_mk1, getChoice_mk2, getChoice_mk3, getChoice_mk4, getChoice_mk5, getChoice_mk6,
    getChoice_mk7, getChoice_mk8, getChoice_mk9]
  ring

theorem slotEmissions_some {opts : List (String × ProcOption)} {o : String} {d : ProcOption}
    (h : alookup o opts = some d) : slotEmissions opts (some o) = d.emissions := by
  simp [slotEmissions, h]

/-- The refund's emissions delta on a catalog-shaped state equals the slot
contribution of the previous selection, for each of the nine slots (supplied
through the two evaluation facts). -/
theorem previousEmissions_slot {c : Choices} {p pr : String}
    {opts : List (String × ProcOption)} {s : Option String}
    (h1 : getChoice c p pr = s)
    (h2 : ∀ x, lookupOption p pr x = alookup x opts) :
    previousEmissions c p pr = slotEmissions opts s := by
  unfold previousEmissions
  rw [h1]
  cases s with
  | none => rfl
  | some prev =>
    dsimp only
    rw [h2 prev]
    cases hlk : alookup prev opts with
    | none => simp [slotEmissions, hlk]
    | some pd => simp [slotEmissions, hlk]

/-! ### The post-commit pipeline of an accepted call -/

/-- Stages (2)-(4) of an accepted call (carbchase.py:501-512): escalator,
happiness recomputation, and the `all_filled`-guarded termination check. -/
def afterCommit (gc : GameState) : GameState :=
  let g4 := calculate_happiness (check_emission_warnings gc)
  if all_filled g4.player_choices then check_game_conditions g4 else g4

theorem select_accepted_eq (g : GameState) (p pr o : String) (d : ProcOption)
    (hd : lookupOption p pr o = some d) (hb : ¬ d.cost > g.budget) :
    select_process_option g p pr o = (afterCommit (commitState g p pr o d), true) := by
  rw [select_accepted g p pr o d hd hb]
  rfl

@[simp] theorem afterCommit_budget (gc : GameState) :
    (afterCommit gc).budget = (check_emission_warnings gc).budget := by
  unfold afterCommit
  dsimp only
  split <;> simp

@[simp] theorem afterCommit_current_emissions (gc : GameState) :
    (afterCommit gc).current_emissions = gc.current_emissions := by
  unfold afterCommit
  dsimp only
  split <;> simp

@[simp] theorem afterCommit_player_choices (gc : GameState) :
    (afterCommit gc).player_choices = gc.player_choices := by
  unfold afterCommit
  dsimp only
  split <;> simp

@[simp] theorem afterCommit_emission_warnings (gc : GameState) :
    (afterCommit gc).emission_warnings = (check_emission_warnings gc).emission_warnings := by
  unfold afterCommit
  dsimp only
  split <;> simp

@[simp] theorem afterCommit_current_happiness (gc : GameState) :
    (afterCommit gc).current_happiness = happinessValue gc.player_choices := by
  unfold afterCommit
  dsimp only
  split <;> simp

@[simp] theorem afterCommit_max_threshold (gc : GameState) :
    (afterCommit gc).MAX_EMISSION_THRESHOLD = gc.MAX_EMISSION_THRESHOLD := by
  unfold afterCommit
  dsimp only
  split <;> simp

@[simp] theorem afterCommit_severe_threshold (gc : GameState) :
    (afterCommit gc).SEVERE_EMISSION_THRESHOLD = gc.SEVERE_EMISSION_THRESHOLD := by
  unfold afterCommit
  dsimp only
  split <;> simp

@[simp] theorem afterCommit_warning_threshold (gc : GameState) :
    (afterCommit gc).WARNING_EMISSION_THRESHOLD = gc.WARNING_EMISSION_THRESHOLD := by
  unfold afterCommit
  dsimp only
  split <;> simp

@[simp] theorem commitState_budget (g : GameState) (p pr o : String) (d : ProcOption) :
    (commitState g p pr o d).budget = g.budget + previousCost g.player_choices p pr - d.cost := rfl

@[simp] theorem commitState_current_emissions (g : GameState) (p pr o : String) (d : ProcOption) :
    (commitState g p pr o d).current_emissions =
      g.current_emissions - previousEmissions g.player_choices p pr + d.emissions := rfl

@[simp] theorem commitState_player_choices (g : GameState) (p pr o : String) (d : ProcOption) :
    (commitState g p pr o d).player_choices = setChoice g.player_choices p pr o := rfl

@[simp] theorem commitState_emission_warnings (g : GameState) (p pr o : String) (d : ProcOption) :
    (commitState g p pr o d).emission_warnings = g.emission_warnings := rfl

@[simp] theorem commitState_game_state (g : GameState) (p pr o : String) (d : ProcOption) :
    (commitState g p pr o d).game_state = g.game_state := rfl

@[simp] theorem commitState_max_threshold (g : GameState) (p pr o : String) (d : ProcOption) :
    (commitState g p pr o d).MAX_EMISSION_THRESHOLD = g.MAX_EMISSION_THRESHOLD := rfl

@[simp] theorem commitState_severe_threshold (g : GameState) (p pr o : String) (d : ProcOption) :
    (commitState g p pr o d).SEVERE_EMISSION_THRESHOLD = g.SEVERE_EMISSION_THRESHOLD := rfl

@[simp] theorem commitState_warning_threshold (g : GameState) (p pr o : String) (d : ProcOption) :
    (commitState g p pr o d).WARNING_EMISSION_THRESHOLD = g.WARNING_EMISSION_THRESHOLD := rfl

/-! ### Per-call invariant lemmas -/

/-- A call (accepted or not) never lowers the warning stage. -/
theorem select_stage_mono (g : GameState) (p pr o : String) :
    g.emission_warnings ≤ (select_process_option g p pr o).1.emission_warnings := by
  cases hl : lookupOption p pr o with
  | none => rw [select_invalid g p pr o hl]
  | some d =>
    by_cases hb : d.cost > g.budget
    · rw [select_poor g p pr o d hl hb]
    · rw [select_accepted_eq g p pr o d hl hb]
      simpa using cw_stage_mono (commitState g p pr o d)

/-- A call keeps a nonnegative budget nonnegative: the affordability guard
protects the commit, the refund only adds, and each fine is at most the
budget it is computed from. -/
theorem select_budget_nonneg (g : GameState) (p pr o : String) (h : 0 ≤ g.budget) :
    0 ≤ (select_process_option g p pr o).1.budget := by
  cases hl : lookupOption p pr o with
  | none => rw [select_invalid g p pr o hl]; exact h
  | some d =>
    by_cases hb : d.cost > g.budget
    · rw [select_poor g p pr o d hl hb]; exact h
    · rw [select_accepted_eq g p pr o d hl hb]
      have hpc : 0 ≤ previousCost g.player_choices p pr := previousCost_nonneg _ _ _
      have hcb : 0 ≤ (commitState g p pr o d).budget := by
        simp only [commitState_budget]
        omega
      rcases cw_transition_spec (commitState g p pr o d) with
        ⟨_, hbud⟩ | ⟨_, _, hbud⟩ | ⟨_, _, hbud⟩ | ⟨_, _, hbud⟩ | ⟨_, _, hbud⟩ <;>
        simp only [afterCommit_budget, hbud, ceilDiv] <;> omega

/-- Both thresholds every call reads are session constants: no call path
touches them. -/
theorem select_thresholds (g : GameState) (p pr o : String) :
    (select_process_option g p pr o).1.MAX_EMISSION_THRESHOLD = g.MAX_EMISSION_THRESHOLD ∧
    (select_process_option g p pr o).1.SEVERE_EMISSION_THRESHOLD = g.SEVERE_EMISSION_THRESHOLD ∧
    (select_process_option g p pr o).1.WARNING_EMISSION_THRESHOLD = g.WARNING_EMISSION_THRESHOLD := by
  cases hl : lookupOption p pr o with
  | none => rw [select_invalid g p pr o hl]; exact ⟨rfl, rfl, rfl⟩
  | some d =>
    by_cases hb : d.cost > g.budget
    · rw [select_poor g p pr o d hl hb]; exact ⟨rfl, rfl, rfl⟩
    · rw [select_accepted_eq g p pr o d hl hb]
      simp

/-! ### The emissions accounting invariant -/

@[simp] theorem applySeq_nil (g : GameState) : applySeq g [] = g := rfl

theorem applySeq_cons (g : GameState) (c : String × String × String)
    (cs : List (String × String × String)) :
    applySeq g (c :: cs) = applySeq (select_process_option g c.1 c.2.1 c.2.2).1 cs := rfl

theorem applySeq_append (g : GameState) (l1 l2 : List (String × String × String)) :
    applySeq g (l1 ++ l2) = applySeq (applySeq g l1) l2 := by
  simp [applySeq, List.foldl_append]

@[simp] theorem reset_player_choices (lvl : String) (b : Nat) (prod : String) :
    (reset_game lvl b prod).player_choices = initial_choices := rfl

@[simp] theorem reset_current_emissions (lvl : String) (b : Nat) (prod : String) :
    (reset_game lvl b prod).current_emissions = 0 := rfl

@[simp] theorem reset_budget (lvl : String) (b : Nat) (prod : String) :
    (reset_game lvl b prod).budget = (b : Int) := rfl

@[simp] theorem reset_emission_warnings (lvl : String) (b : Nat) (prod : String) :
    (reset_game lvl b prod).emission_warnings = 0 := rfl

theorem initial_choices_mk :
    initial_choices = mkChoices ⟨none, none, none, none, none, none, none, none, none⟩ := rfl

/-- One call preserves the C2 invariant: the selection state keeps the
nine-slot catalog shape, and afterwards the emissions counter again equals
the sum of the emissions of the selected options. -/
theorem select_sum_inv (g : GameState) (p pr o : String) (v : Slots)
    (hc : g.player_choices = mkChoices v)
    (he : g.current_emissions = sumSelectedEmissions g.player_choices) :
    ∃ w : Slots, (select_process_option g p pr o).1.player_choices = mkChoices w ∧
      (select_process_option g p pr o).1.current_emissions =
        sumSelectedEmissions (select_process_option g p pr o).1.player_choices := by
  rw [hc] at he
  cases hl : lookupOption p pr o with
  | none =>
    rw [select_invalid g p pr o hl]
    exact ⟨v, hc, by rw [hc]; exact he⟩
  | some d =>
    by_cases hb : d.cost > g.budget
    · rw [select_poor g p pr o d hl hb]
      exact ⟨v, hc, by rw [hc]; exact he⟩
    · rw [select_accepted_eq g p pr o d hl hb]
      dsimp only
      simp only [afterCommit_player_choices, afterCommit_current_emissions,
        commitState_player_choices, commitState_current_emissions, hc]
      rcases lookupOption_cases hl with
        ⟨rfl, rfl, hak⟩ | ⟨rfl, rfl, hak⟩ | ⟨rfl, rfl, hak⟩ | ⟨rfl, rfl, hak⟩ | ⟨rfl, rfl, hak⟩ |
        ⟨rfl, rfl, hak⟩ | ⟨rfl, rfl, hak⟩ | ⟨rfl, rfl, hak⟩ | ⟨rfl, rfl, hak⟩
      · refine ⟨{ v with s1 := some o }, by rw [setChoice_mk1], ?_⟩
        rw [setChoice_mk1, he, previousEmissions_slot (getChoice_mk1 v) lookupOption_slot1,
          sumSel_mk, sumSel_mk]
        dsimp only
        rw [slotEmissions_some hak]
        omega
      · refine ⟨{ v with s2 := some o }, by rw [setChoice_mk2], ?_⟩
        rw [setChoice_mk2, he, previousEmissions_slot (getChoice_mk2 v) lookupOption_slot2,
          sumSel_mk, sumSel_mk]
        dsimp only
        rw [slotEmissions_some hak]
        omega
      · refine ⟨{ v with s3 := some o }, by rw [setChoice_mk3], ?_⟩
        rw [setChoice_mk3, he, previousEmissions_slot (getChoice_mk3 v) lookupOption_slot3,
          sumSel_mk, sumSel_mk]
        dsimp only
        rw [slotEmissions_some hak]
        omega
      · refine ⟨{ v with s4 := some o }, by rw [setChoice_mk4], ?_⟩
        rw [setChoice_mk4, he, previousEmissions_slot (getChoice_mk4 v) lookupOption_slot4,
          sumSel_mk, sumSel_mk]
        dsimp only
        rw [slotEmissions_some hak]
        omega
      · refine ⟨{ v with s5 := some o }, by rw [setChoice_mk5], ?_⟩
        rw [setChoice_mk5, he, previousEmissions_slot (getChoice_mk5 v) lookupOption_slot5,
          sumSel_mk, sumSel_mk]
        dsimp only
        rw [slotEmissions_some hak]
        omega
      · refine ⟨{ v with s6 := some o }, by rw [setChoice_mk6], ?_⟩
        rw [setChoice_mk6, he, previousEmissions_slot (getChoice_mk6 v) lookupOption_slot6,
          sumSel_mk, sumSel_mk]
        dsimp only
        rw [slotEmissions_some hak]
        omega
      · refine ⟨{ v with s7 := some o }, by rw [setChoice_mk7], ?_⟩
        rw [setChoice_mk7, he, previousEmissions_slot (getChoice_mk7 v) lookupOption_slot7,
          sumSel_mk, sumSel_mk]
        dsimp only
        rw [slotEmissions_some hak]
        omega
      · refine ⟨{ v with s8 := some o }, by rw [setChoice_mk8], ?_⟩
        rw [setChoice_mk8, he, previousEmissions_slot (getChoice_mk8 v) lookupOption_slot8,
          sumSel_mk, sumSel_mk]
        dsimp only
        rw [slotEmissions_some hak]
        omega
      · refine ⟨{ v with s9 := some o }, by rw [setChoice_mk9], ?_⟩
        rw [setChoice_mk9, he, previousEmissions_slot (getChoice_mk9 v) lookupOption_slot9,
          sumSel_mk, sumSel_mk]
        dsimp only
        rw [slotEmissions_some hak]
        omega

/-- The C2 invariant propagates through any call sequence. -/
theorem applySeq_sum_inv (calls : List (String × String × String)) :
    ∀ g : GameState,
      (∃ v : Slots, g.player_choices = mkChoices v ∧
        g.current_emissions = sumSelectedEmissions g.player_choices) →
      ∃ v : Slots, (applySeq g calls).player_choices = mkChoices v ∧
        (applySeq g calls).current_emissions =
          sumSelectedEmissions (applySeq g calls).player_choices := by
  induction calls with
  | nil => intro g h; simpa using h
  | cons c cs ih =>
    intro g h
    obtain ⟨v, hc, he⟩ := h
    rw [applySeq_cons]
    obtain ⟨w, hw1, hw2⟩ := select_sum_inv g c.1 c.2.1 c.2.2 v hc he
    exact ih _ ⟨w, hw1, hw2⟩

/-! ### Bounds on the happiness percentage -/

theorem happinessProcs_le (c : Choices) (p : String)
    (l : List (String × List (String × ProcOption)))
    (H : ∀ pr opts, (pr, opts) ∈ l → ∀ o d, alookup o opts = some d → d.happiness ≤ 5) :
    (happinessProcs c p l).1 ≤ 5 * (happinessProcs c p l).2 := by
  induction l with
  | nil => simp [happinessProcs]
  | cons e rest ih =>
    obtain ⟨pr, opts⟩ := e
    have hrest := ih (fun pr2 opts2 hm => H pr2 opts2 (List.mem_cons_of_mem _ hm))
    have hH := H pr opts (List.mem_cons_self _ _)
    unfold happinessProcs
    dsimp only
    cases hgc : getChoice c p pr with
    | none => exact hrest
    | some o =>
      dsimp only
      cases hlk : alookup o opts with
      | none => exact hrest
      | some d =>
        dsimp only
        have hd5 := hH o d hlk
        omega

theorem happinessProducts_le (c : Choices)
    (l : List (String × List (String × List (String × ProcOption))))
    (H : ∀ p procs, (p, procs) ∈ l → ∀ pr opts, (pr, opts) ∈ procs →
        ∀ o d, alookup o opts = some d → d.happiness ≤ 5) :
    (happinessProducts c l).1 ≤ 5 * (happinessProducts c l).2 := by
  induction l with
  | nil => simp [happinessProducts]
  | cons e rest ih =>
    obtain ⟨p, procs⟩ := e
    have hrest := ih (fun p2 procs2 hm => H p2 procs2 (List.mem_cons_of_mem _ hm))
    have hhere := happinessProcs_le c p procs (H p procs (List.mem_cons_self _ _))
    unfold happinessProducts
    dsimp only
    omega

/-- The recomputed happiness percentage always lies in `[0, 100]`. -/
theorem happinessValue_bounds (c : Choices) :
    0 ≤ happinessValue c ∧ happinessValue c ≤ 100 := by
  unfold happinessValue
  dsimp only
  split
  · next hpos =>
    have hle : (happinessProducts c processes).1 ≤ 5 * (happinessProducts c processes).2 := by
      refine happinessProducts_le c processes ?_
      intro p procs h1 pr opts h2 o d h3
      exact (catalog_entries_sound _ h1 _ h2 _ (alookup_mem h3)).2.2
    constructor
    · exact Int.natCast_nonneg _
    · have hdiv : (happinessProducts c processes).1 * 100 /
          ((happinessProducts c processes).2 * 5) ≤ 100 :=
        Nat.div_le_of_le_mul' (by omega)
      exact_mod_cast hdiv
  · exact ⟨le_refl 0, by norm_num⟩

/-! ### Same-slot rewrite lemmas -/

/-- Re-selecting the option a slot already holds leaves the selection table
unchanged (for states of catalog shape). -/
theorem setChoice_self {v : Slots} {p pr o : String} {d : ProcOption}
    (hd : lookupOption p pr o = some d)
    (hsel : getChoice (mkChoices v) p pr = some o) :
    setChoice (mkChoices v) p pr o = mkChoices v := by
  rcases lookupOption_cases hd with
    ⟨rfl, rfl, -⟩ | ⟨rfl, rfl, -⟩ | ⟨rfl, rfl, -⟩ | ⟨rfl, rfl, -⟩ | ⟨rfl, rfl, -⟩ |
    ⟨rfl, rfl, -⟩ | ⟨rfl, rfl, -⟩ | ⟨rfl, rfl, -⟩ | ⟨rfl, rfl, -⟩
  · rw [getChoice_mk1] at hsel
    rw [setChoice_mk1]
    exact congrArg mkChoices (by apply Slots.ext <;> simp [hsel])
  · rw [getChoice_mk2] at hsel
    rw [setChoice_mk2]
    exact congrArg mkChoices (by apply Slots.ext <;> simp [hsel])
  · rw [getChoice_mk3] at hsel
    rw [setChoice_mk3]
    exact congrArg mkChoices (by apply Slots.ext <;> simp [hsel])
  · rw [getChoice_mk4] at hsel
    rw [setChoice_mk4]
    exact congrArg mkChoices (by apply Slots.ext <;> simp [hsel])
  · rw [getChoice_mk5] at hsel
    rw [setChoice_mk5]
    exact congrArg mkChoices (by apply Slots.ext <;> simp [hsel])
  · rw [getChoice_mk6] at hsel
    rw [setChoice_mk6]
    exact congrArg mkChoices (by apply Slots.ext <;> simp [hsel])
  · rw [getChoice_mk7] at hsel
    rw [setChoice_mk7]
    exact congrArg mkChoices (by apply Slots.ext <;> simp [hsel])
  · rw [getChoice_mk8] at hsel
    rw [setChoice_mk8]
    exact congrArg mkChoices (by apply Slots.ext <;> simp [hsel])
  · rw [getChoice_mk9] at hsel
    rw [setChoice_mk9]
    exact congrArg mkChoices (by apply Slots.ext <;> simp [hsel])

/-- Reading a slot right after writing it returns the written option (for
states of catalog shape and a slot that exists in the catalog). -/
theorem getChoice_setChoice {v : Slots} {p pr b : String} {db : ProcOption}
    (hdb : lookupOption p pr b = some db) :
    getChoice (setChoice (mkChoices v) p pr b) p pr = some b := by
  rcases lookupOption_cases hdb with
    ⟨rfl, rfl, -⟩ | ⟨rfl, rfl, -⟩ | ⟨rfl, rfl, -⟩ | ⟨rfl, rfl, -⟩ | ⟨rfl, rfl, -⟩ |
    ⟨rfl, rfl, -⟩ | ⟨rfl, rfl, -⟩ | ⟨rfl, rfl, -⟩ | ⟨rfl, rfl, -⟩
  · rw [setChoice_mk1, getChoice_mk1]
  · rw [setChoice_mk2, getChoice_mk2]
  · rw [setChoice_mk3, getChoice_mk3]
  · rw [setChoice_mk4, getChoice_mk4]
  · rw [setChoice_mk5, getChoice_mk5]
  · rw [setChoice_mk6, getChoice_mk6]
  · rw [setChoice_mk7, getChoice_mk7]
  · rw [setChoice_mk8, getChoice_mk8]
  · rw [setChoice_mk9, getChoice_mk9]

/-! ### Sequence-level helper lemmas -/

theorem applySeq_stage_mono (more : List (String × String × String)) :
    ∀ g : GameState, g.emission_warnings ≤ (applySeq g more).emission_warnings := by
  induction more with
  | nil => intro g; simp
  | cons c cs ih =>
    intro g
    rw [applySeq_cons]
    exact le_trans (select_stage_mono g c.1 c.2.1 c.2.2) (ih _)

theorem applySeq_budget_nonneg (calls : List (String × String × String)) :
    ∀ g : GameState, 0 ≤ g.budget → 0 ≤ (applySeq g calls).budget := by
  induction calls with
  | nil => intro g h; simpa using h
  | cons c cs ih =>
    intro g h
    rw [applySeq_cons]
    exact ih _ (select_budget_nonneg g c.1 c.2.1 c.2.2 h)

/-! ### The claims -/

/-- C2 (confirmed): after every apply call of any call sequence on a fresh
session, the cumulative `current_emissions` equals the sum of the emissions
attributes of all currently-selected options; the refund block subtracts a
re-selected slot exactly and rejected calls change nothing. -/
theorem claim_C2 (lvl prod : String) (b : Nat) (calls : List (String × String × String)) :
    (applySeq (reset_game lvl b prod) calls).current_emissions =
      sumSelectedEmissions (applySeq (reset_game lvl b prod) calls).player_choices := by
  obtain ⟨v, _, he⟩ := applySeq_sum_inv calls (reset_game lvl b prod)
    ⟨⟨none, none, none, none, none, none, none, none, none⟩,
      by rw [reset_player_choices, initial_choices_mk], rfl⟩
  exact he

/-- C4 (confirmed): within a session the warning stage never decreases
across any sequence of apply calls, and one escalator run either does
nothing, or makes exactly one forward transition, charging `ceil(0.05 *
budget)` exactly on 1→2 and `ceil(0.10 * budget)` exactly on 2→3 — each
computed on the budget at the moment of the fine — and charging nothing on
0→1, on the jump to 4, and at stage ≥ 3 below the severe level; a fine can
therefore recur only if its stage transition recurred, which monotonicity
rules out. -/
theorem claim_C4 :
    (∀ (lvl prod : String) (b : Nat) (calls more : List (String × String × String)),
      (applySeq (reset_game lvl b prod) calls).emission_warnings ≤
        (applySeq (reset_game lvl b prod) (calls ++ more)).emission_warnings) ∧
    (∀ g : GameState,
      ((check_emission_warnings g).emission_warnings = g.emission_warnings ∧
        (check_emission_warnings g).budget = g.budget) ∨
      (g.emission_warnings = 0 ∧ (check_emission_warnings g).emission_warnings = 1 ∧
        (check_emission_warnings g).budget = g.budget) ∨
      (g.emission_warnings = 1 ∧ (check_emission_warnings g).emission_warnings = 2 ∧
        (check_emission_warnings g).budget = g.budget - ceilDiv g.budget 20) ∨
      (g.emission_warnings = 2 ∧ (check_emission_warnings g).emission_warnings = 3 ∧
        (check_emission_warnings g).budget = g.budget - ceilDiv g.budget 10) ∨
      (g.emission_warnings < 4 ∧ (check_emission_warnings g).emission_warnings = 4 ∧
        (check_emission_warnings g).budget = g.budget)) := by
  constructor
  · intro lvl prod b calls more
    rw [applySeq_append]
    exact applySeq_stage_mono more _
  · exact cw_transition_spec

/-- C7 (confirmed): every failed apply call — unresolvable selection
(`InvalidSelection`) or cost above the current budget (`InsufficientBudget`)
— returns failure and leaves budget, emissions, selections, happiness,
warning stage and status untouched (only `info_message` is rewritten). -/
theorem claim_C7 (g : GameState) (p pr o : String)
    (h : (select_process_option g p pr o).2 = false) :
    (select_process_option g p pr o).1.budget = g.budget ∧
    (select_process_option g p pr o).1.current_emissions = g.current_emissions ∧
    (select_process_option g p pr o).1.player_choices = g.player_choices ∧
    (select_process_option g p pr o).1.current_happiness = g.current_happiness ∧
    (select_process_option g p pr o).1.emission_warnings = g.emission_warnings ∧
    (select_process_option g p pr o).1.game_state = g.game_state := by
  cases hl : lookupOption p pr o with
  | none =>
    rw [select_invalid g p pr o hl]
    exact ⟨rfl, rfl, rfl, rfl, rfl, rfl⟩
  | some d =>
    by_cases hb : d.cost > g.budget
    · rw [select_poor g p pr o d hl hb]
      exact ⟨rfl, rfl, rfl, rfl, rfl, rfl⟩
    · rw [select_accepted_eq g p pr o d hl hb] at h
      simp at h

/-- Witness for C7 at a concrete failing call: "Nuclear" is not a Pizza
baking option, so the call is rejected and every listed field is unchanged. -/
theorem claim_C7_witness :
    (select_process_option (reset_game "Growing Company" 10000 "Pizza")
        "Pizza" "Baking" "Nuclear").2 = false ∧
    ((select_process_option (reset_game "Growing Company" 10000 "Pizza")
        "Pizza" "Baking" "Nuclear").1.budget =
      (reset_game "Growing Company" 10000 "Pizza").budget ∧
     (select_process_option (reset_game "Growing Company" 10000 "Pizza")
        "Pizza" "Baking" "Nuclear").1.current_emissions =
      (reset_game "Growing Company" 10000 "Pizza").current_emissions ∧
     (select_process_option (reset_game "Growing Company" 10000 "Pizza")
        "Pizza" "Baking" "Nuclear").1.player_choices =
      (reset_game "Growing Company" 10000 "Pizza").player_choices ∧
     (select_process_option (reset_game "Growing Company" 10000 "Pizza")
        "Pizza" "Baking" "Nuclear").1.current_happiness =
      (reset_game "Growing Company" 10000 "Pizza").current_happiness ∧
     (select_process_option (reset_game "Growing Company" 10000 "Pizza")
        "Pizza" "Baking" "Nuclear").1.emission_warnings =
      (reset_game "Growing Company" 10000 "Pizza").emission_warnings ∧
     (select_process_option (reset_game "Growing Company" 10000 "Pizza")
        "Pizza" "Baking" "Nuclear").1.game_state =
      (reset_game "Growing Company" 10000 "Pizza").game_state) :=
  ⟨by decide, claim_C7 _ _ _ _ (by decide)⟩

/-- C9 (confirmed): every accepted call recomputes `current_happiness` from
scratch over the currently-selected options — `0` with none selected, else
`floor(100 * totalHappiness / (5 * selectedCount))` — and the result always
lies in `[0, 100]`. -/
theorem claim_C9 (g g2 : GameState) (p pr o : String)
    (h : select_process_option g p pr o = (g2, true)) :
    g2.current_happiness = happinessValue g2.player_choices ∧
    0 ≤ g2.current_happiness ∧ g2.current_happiness ≤ 100 := by
  cases hl : lookupOption p pr o with
  | none =>
    rw [select_invalid g p pr o hl] at h
    simp at h
  | some d =>
    by_cases hb : d.cost > g.budget
    · rw [select_poor g p pr o d hl hb] at h
      simp at h
    · rw [select_accepted_eq g p pr o d hl hb] at h
      have hg2 : afterCommit (commitState g p pr o d) = g2 := congrArg Prod.fst h
      subst hg2
      refine ⟨?_, ?_, ?_⟩
      · rw [afterCommit_current_happiness, afterCommit_player_choices]
      · rw [afterCommit_current_happiness]
        exact (happinessValue_bounds _).1
      · rw [afterCommit_current_happiness]
        exact (happinessValue_bounds _).2

/-- Witness for C9 at a concrete accepted call (Solar baking on a fresh
10000 session). -/
theorem claim_C9_witness :
    (select_process_option (reset_game "Growing Company" 10000 "Pizza")
        "Pizza" "Baking" "Solar").1.current_happiness =
      happinessValue (select_process_option (reset_game "Growing Company" 10000 "Pizza")
        "Pizza" "Baking" "Solar").1.player_choices ∧
    0 ≤ (select_process_option (reset_game "Growing Company" 10000 "Pizza")
        "Pizza" "Baking" "Solar").1.current_happiness ∧
    (select_process_option (reset_game "Growing Company" 10000 "Pizza")
        "Pizza" "Baking" "Solar").1.current_happiness ≤ 100 :=
  claim_C9 (reset_game "Growing Company" 10000 "Pizza")
    ((select_process_option (reset_game "Growing Company" 10000 "Pizza")
      "Pizza" "Baking" "Solar").1)
    "Pizza" "Baking" "Solar" (by decide)

/-- C10 (confirmed): every state reachable from a fresh session keeps
`budget ≥ 0` — the affordability guard runs before any mutation, refunds only
add, and each fine never exceeds the budget it is computed on — and on any
state with a nonnegative budget `check_game_conditions` behaves exactly like
the same evaluator with the `budget < 0` (Bankrupt) branch deleted: that
branch is dead code. -/
theorem claim_C10 :
    (∀ (lvl prod : String) (b : Nat) (calls : List (String × String × String)),
      0 ≤ (applySeq (reset_game lvl b prod) calls).budget) ∧
    (∀ g : GameState, 0 ≤ g.budget →
      check_game_conditions g = check_game_conditions_noBankrupt g) := by
  constructor
  · intro lvl prod b calls
    refine applySeq_budget_nonneg calls _ ?_
    rw [reset_budget]
    exact Int.natCast_nonneg b
  · intro g hg
    unfold check_game_conditions check_game_conditions_noBankrupt game_over
    split_ifs <;> first | rfl | omega

/-- Witness for C10: the dead-branch equality instantiated at a concrete
nonnegative-budget state. -/
theorem claim_C10_witness :
    0 ≤ (reset_game "Small Business" 5000 "Pizza").budget ∧
    check_game_conditions (reset_game "Small Business" 5000 "Pizza") =
      check_game_conditions_noBankrupt (reset_game "Small Business" 5000 "Pizza") :=
  ⟨by decide, claim_C10.2 _ (by decide)⟩

/-- C8 (corrected) counterexample: after the Lithium Mining selection on a
fresh 10000 session the status is Completed (`game_over`), yet a further
direct `select_process_option` call is accepted and mutates the state —
the engine itself never checks the status. -/
theorem claim_C8_counterexample :
    (applySeq (reset_game "Growing Company" 10000 "Pizza")
      [ ( "E-Bike", "Battery Production", "Lithium Mining") ]).game_state = "game_over" ∧
    (select_process_option
      (applySeq (reset_game "Growing Company" 10000 "Pizza")
        [ ( "E-Bike", "Battery Production", "Lithium Mining") ])
      "Pizza" "Baking" "Solar").2 = true ∧
    (select_process_option
      (applySeq (reset_game "Growing Company" 10000 "Pizza")
        [ ( "E-Bike", "Battery Production", "Lithium Mining") ])
      "Pizza" "Baking" "Solar").1.budget ≠
    (applySeq (reset_game "Growing Company" 10000 "Pizza")
      [ ( "E-Bike", "Battery Production", "Lithium Mining") ]).budget := by
  decide

/-- C8 (corrected): terminality of `Completed` is enforced by the caller,
not the engine — the event loop dispatches a selection click to
`select_process_option` only while `game_state` is `"playing"`, so through
the UI no call mutates a completed session; a direct engine call would. -/
theorem claim_C8 (g : GameState) (p pr o : String)
    (h : g.game_state = "game_over") :
    ui_select g p pr o = g := by
  unfold ui_select
  rw [if_neg]
  rintro ⟨h1, -⟩
  rw [h] at h1
  exact absurd h1 (by decide)

/-- Witness for C8 at the concrete completed session of the counterexample
trace: the gated dispatch is a no-op there. -/
theorem claim_C8_witness :
    ui_select
      (applySeq (reset_game "Growing Company" 10000 "Pizza")
        [ ( "E-Bike", "Battery Production", "Lithium Mining") ])
      "Pizza" "Baking" "Solar" =
    applySeq (reset_game "Growing Company" 10000 "Pizza")
      [ ( "E-Bike", "Battery Production", "Lithium Mining") ] :=
  claim_C8 _ "Pizza" "Baking" "Solar" (by decide)

theorem afterCommit_not_filled (gc : GameState)
    (h : all_filled gc.player_choices = false) :
    afterCommit gc = calculate_happiness (check_emission_warnings gc) := by
  unfold afterCommit
  dsimp only
  rw [if_neg (by simp [h])]

theorem afterCommit_filled (gc : GameState)
    (h : all_filled gc.player_choices = true) :
    afterCommit gc = check_game_conditions (calculate_happiness (check_emission_warnings gc)) := by
  unfold afterCommit
  dsimp only
  rw [if_pos (by simp [h])]

/-- C5 (corrected) counterexample: on a fresh 30000 session, eight selections
reach stage 2 with emissions 12500 ≤ severe (12600); the ninth selection
(Lithium Mining) pushes emissions to 17000 > severe while filling the last
slot. The stage does jump to 4 and the game ends, but the final message is
the "Product complete" success-tier classification, not the halt notice —
the termination evaluator ran afterwards and overwrote it. -/
theorem claim_C5_counterexample :
    (applySeq (reset_game "Corporate Giant" 30000 "Pizza")
      [ ( "Pizza", "Ingredient Sourcing", "Conventional"),
        ( "Pizza", "Dough Preparation", "Mass Produced"),
        ( "Pizza", "Baking", "Gas Oven"),
        ( "Pizza", "Packaging", "Plastic"),
        ( "Smartphone", "Component Production", "Outsource"),
        ( "Smartphone", "Distribution", "Sea Freight"),
        ( "E-Bike", "Frame Production", "Aluminum"),
        ( "E-Bike", "Assembly", "Manual") ]).emission_warnings < 4 ∧
    (select_process_option
      (applySeq (reset_game "Corporate Giant" 30000 "Pizza")
        [ ( "Pizza", "Ingredient Sourcing", "Conventional"),
          ( "Pizza", "Dough Preparation", "Mass Produced"),
          ( "Pizza", "Baking", "Gas Oven"),
          ( "Pizza", "Packaging", "Plastic"),
          ( "Smartphone", "Component Production", "Outsource"),
          ( "Smartphone", "Distribution", "Sea Freight"),
          ( "E-Bike", "Frame Production", "Aluminum"),
          ( "E-Bike", "Assembly", "Manual") ])
      "E-Bike" "Battery Production" "Lithium Mining").2 = true ∧
    (select_process_option
      (applySeq (reset_game "Corporate Giant" 30000 "Pizza")
        [ ( "Pizza", "Ingredient Sourcing", "Conventional"),
          ( "Pizza", "Dough Preparation", "Mass Produced"),
          ( "Pizza", "Baking", "Gas Oven"),
          ( "Pizza", "Packaging", "Plastic"),
          ( "Smartphone", "Component Production", "Outsource"),
          ( "Smartphone", "Distribution", "Sea Freight"),
          ( "E-Bike", "Frame Production", "Aluminum"),
          ( "E-Bike", "Assembly", "Manual") ])
      "E-Bike" "Battery Production" "Lithium Mining").1.current_emissions >
    (select_process_option
      (applySeq (reset_game "Corporate Giant" 30000 "Pizza")
        [ ( "Pizza", "Ingredient Sourcing", "Conventional"),
          ( "Pizza", "Dough Preparation", "Mass Produced"),
          ( "Pizza", "Baking", "Gas Oven"),
          ( "Pizza", "Packaging", "Plastic"),
          ( "Smartphone", "Component Production", "Outsource"),
          ( "Smartphone", "Distribution", "Sea Freight"),
          ( "E-Bike", "Frame Production", "Aluminum"),
          ( "E-Bike", "Assembly", "Manual") ])
      "E-Bike" "Battery Production" "Lithium Mining").1.SEVERE_EMISSION_THRESHOLD ∧
    (select_process_option
      (applySeq (reset_game "Corporate Giant" 30000 "Pizza")
        [ ( "Pizza", "Ingredient Sourcing", "Conventional"),
          ( "Pizza", "Dough Preparation", "Mass Produced"),
          ( "Pizza", "Baking", "Gas Oven"),
          ( "Pizza", "Packaging", "Plastic"),
          ( "Smartphone", "Component Production", "Outsource"),
          ( "Smartphone", "Distribution", "Sea Freight"),
          ( "E-Bike", "Frame Production", "Aluminum"),
          ( "E-Bike", "Assembly", "Manual") ])
      "E-Bike" "Battery Production" "Lithium Mining").1.emission_warnings = 4 ∧
    (select_process_option
      (applySeq (reset_game "Corporate Giant" 30000 "Pizza")
        [ ( "Pizza", "Ingredient Sourcing", "Conventional"),
          ( "Pizza", "Dough Preparation", "Mass Produced"),
          ( "Pizza", "Baking", "Gas Oven"),
          ( "Pizza", "Packaging", "Plastic"),
          ( "Smartphone", "Component Production", "Outsource"),
          ( "Smartphone", "Distribution", "Sea Freight"),
          ( "E-Bike", "Frame Production", "Aluminum"),
          ( "E-Bike", "Assembly", "Manual") ])
      "E-Bike" "Battery Production" "Lithium Mining").1.game_state = "game_over" ∧
    (select_process_option
      (applySeq (reset_game "Corporate Giant" 30000 "Pizza")
        [ ( "Pizza", "Ingredient Sourcing", "Conventional"),
          ( "Pizza", "Dough Preparation", "Mass Produced"),
          ( "Pizza", "Baking", "Gas Oven"),
          ( "Pizza", "Packaging", "Plastic"),
          ( "Smartphone", "Component Production", "Outsource"),
          ( "Smartphone", "Distribution", "Sea Freight"),
          ( "E-Bike", "Frame Production", "Aluminum"),
          ( "E-Bike", "Assembly", "Manual") ])
      "E-Bike" "Battery Production" "Lithium Mining").1.info_message ≠
      "Production halted! Emissions critically high (4th warning)." ∧
    (select_process_option
      (applySeq (reset_game "Corporate Giant" 30000 "Pizza")
        [ ( "Pizza", "Ingredient Sourcing", "Conventional"),
          ( "Pizza", "Dough Preparation", "Mass Produced"),
          ( "Pizza", "Baking", "Gas Oven"),
          ( "Pizza", "Packaging", "Plastic"),
          ( "Smartphone", "Component Production", "Outsource"),
          ( "Smartphone", "Distribution", "Sea Freight"),
          ( "E-Bike", "Frame Production", "Aluminum"),
          ( "E-Bike", "Assembly", "Manual") ])
      "E-Bike" "Battery Production" "Lithium Mining").1.info_message =
      "Product complete, but emissions are higher than ideal." := by
  decide

/-- C5 (corrected): when a committed selection lifts emissions above the
severe threshold while the stage is below 4, the stage jumps straight to 4
(skipping intermediate stages and their fines — the budget keeps the plain
refund-and-pay value) and the game ends; the halt message survives only if
the selection left some slot open, because a filling selection still runs
the termination evaluator, which overwrites the message with its own
classification. -/
theorem claim_C5 (g g2 : GameState) (p pr o : String) (d : ProcOption)
    (hd : lookupOption p pr o = some d)
    (h : select_process_option g p pr o = (g2, true))
    (hsev : g2.current_emissions > g2.SEVERE_EMISSION_THRESHOLD)
    (hst : g.emission_warnings < 4) :
    g2.emission_warnings = 4 ∧
    g2.game_state = "game_over" ∧
    g2.budget = g.budget + previousCost g.player_choices p pr - d.cost ∧
    (all_filled g2.player_choices = false →
      g2.info_message = "Production halted! Emissions critically high (4th warning).") := by
  by_cases hb : d.cost > g.budget
  · rw [select_poor g p pr o d hd hb] at h
    simp at h
  · rw [select_accepted_eq g p pr o d hd hb] at h
    have hg2 : afterCommit (commitState g p pr o d) = g2 := congrArg Prod.fst h
    subst hg2
    rw [afterCommit_current_emissions, afterCommit_severe_threshold] at hsev
    have hsev2 : (commitState g p pr o d).current_emissions >
        (commitState g p pr o d).SEVERE_EMISSION_THRESHOLD := hsev
    have hst2 : (commitState g p pr o d).emission_warnings < 4 := hst
    have hcw := cw_severe (commitState g p pr o d) hsev2 hst2
    refine ⟨?_, ?_, ?_, ?_⟩
    · rw [afterCommit_emission_warnings, hcw]
    · by_cases hf : all_filled (commitState g p pr o d).player_choices = true
      · rw [afterCommit_filled _ hf]
        exact cg_game_over_of_filled _ (by simpa using hf)
      · rw [afterCommit_not_filled _ (by simpa using hf)]
        rw [ch_game_state, hcw]
    · rw [afterCommit_budget, hcw]
      rfl
    · intro hnf
      rw [afterCommit_player_choices] at hnf
      rw [afterCommit_not_filled _ hnf, ch_info_message, hcw]

/-- Witness for C5 at the concrete halt of the C1 trace: Lithium Mining
pushes a playing stage-0 session over the severe threshold with six slots
still open, so the session halts at stage 4 with the halt message and no
fine. -/
theorem claim_C5_witness :
    (select_process_option
      (applySeq (reset_game "Growing Company" 10000 "Pizza")
        [ ( "Pizza", "Baking", "Gas Oven"), ( "Pizza", "Ingredient Sourcing", "Conventional") ])
      "E-Bike" "Battery Production" "Lithium Mining").1.emission_warnings = 4 ∧
    (select_process_option
      (applySeq (reset_game "Growing Company" 10000 "Pizza")
        [ ( "Pizza", "Baking", "Gas Oven"), ( "Pizza", "Ingredient Sourcing", "Conventional") ])
      "E-Bike" "Battery Production" "Lithium Mining").1.game_state = "game_over" ∧
    (select_process_option
      (applySeq (reset_game "Growing Company" 10000 "Pizza")
        [ ( "Pizza", "Baking", "Gas Oven"), ( "Pizza", "Ingredient Sourcing", "Conventional") ])
      "E-Bike" "Battery Production" "Lithium Mining").1.budget =
      (applySeq (reset_game "Growing Company" 10000 "Pizza")
        [ ( "Pizza", "Baking", "Gas Oven"), ( "Pizza", "Ingredient Sourcing", "Conventional") ]).budget +
      previousCost
        (applySeq (reset_game "Growing Company" 10000 "Pizza")
          [ ( "Pizza", "Baking", "Gas Oven"), ( "Pizza", "Ingredient Sourcing", "Conventional") ]).player_choices
        "E-Bike" "Battery Production" -
      (2000 : Int) ∧
    (all_filled
      (select_process_option
        (applySeq (reset_game "Growing Company" 10000 "Pizza")
          [ ( "Pizza", "Baking", "Gas Oven"), ( "Pizza", "Ingredient Sourcing", "Conventional") ])
        "E-Bike" "Battery Production" "Lithium Mining").1.player_choices = false →
      (select_process_option
        (applySeq (reset_game "Growing Company" 10000 "Pizza")
          [ ( "Pizza", "Baking", "Gas Oven"), ( "Pizza", "Ingredient Sourcing", "Conventional") ])
        "E-Bike" "Battery Production" "Lithium Mining").1.info_message =
      "Production halted! Emissions critically high (4th warning).") :=
  claim_C5
    (applySeq (reset_game "Growing Company" 10000 "Pizza")
      [ ( "Pizza", "Baking", "Gas Oven"), ( "Pizza", "Ingredient Sourcing", "Conventional") ])
    ((select_process_option
      (applySeq (reset_game "Growing Company" 10000 "Pizza")
        [ ( "Pizza", "Baking", "Gas Oven"), ( "Pizza", "Ingredient Sourcing", "Conventional") ])
      "E-Bike" "Battery Production" "Lithium Mining").1)
    "E-Bike" "Battery Production" "Lithium Mining"
    ⟨2000, 4500, 5, 3, "High performance but destructive mining"⟩
    (by decide) (by decide) (by decide) (by decide)

/-- C1 (corrected) counterexample: on a fresh 10000 session (max 6000,
severe 4200) two selections reach emissions 2200 while still Playing; the
accepted Lithium Mining selection lifts emissions to 6700 > maxEmission with
six slots still open. The claimed priority evaluation would yield
`Completed(ExcessiveEmissions)`; the program instead halts through the
warning escalator and never runs `check_game_conditions`, leaving the halt
message. -/
theorem claim_C1_counterexample :
    (applySeq (reset_game "Growing Company" 10000 "Pizza")
      [ ( "Pizza", "Baking", "Gas Oven"), ( "Pizza", "Ingredient Sourcing", "Conventional") ]).game_state =
      "playing" ∧
    (select_process_option
      (applySeq (reset_game "Growing Company" 10000 "Pizza")
        [ ( "Pizza", "Baking", "Gas Oven"), ( "Pizza", "Ingredient Sourcing", "Conventional") ])
      "E-Bike" "Battery Production" "Lithium Mining").2 = true ∧
    all_filled
      (select_process_option
        (applySeq (reset_game "Growing Company" 10000 "Pizza")
          [ ( "Pizza", "Baking", "Gas Oven"), ( "Pizza", "Ingredient Sourcing", "Conventional") ])
        "E-Bike" "Battery Production" "Lithium Mining").1.player_choices = false ∧
    (select_process_option
      (applySeq (reset_game "Growing Company" 10000 "Pizza")
        [ ( "Pizza", "Baking", "Gas Oven"), ( "Pizza", "Ingredient Sourcing", "Conventional") ])
      "E-Bike" "Battery Production" "Lithium Mining").1.current_emissions >
    (select_process_option
      (applySeq (reset_game "Growing Company" 10000 "Pizza")
        [ ( "Pizza", "Baking", "Gas Oven"), ( "Pizza", "Ingredient Sourcing", "Conventional") ])
      "E-Bike" "Battery Production" "Lithium Mining").1.MAX_EMISSION_THRESHOLD ∧
    (select_process_option
      (applySeq (reset_game "Growing Company" 10000 "Pizza")
        [ ( "Pizza", "Baking", "Gas Oven"), ( "Pizza", "Ingredient Sourcing", "Conventional") ])
      "E-Bike" "Battery Production" "Lithium Mining").1.info_message ≠
      "Game Over: Excessive Emissions! Your production emits too much CO2." ∧
    (select_process_option
      (applySeq (reset_game "Growing Company" 10000 "Pizza")
        [ ( "Pizza", "Baking", "Gas Oven"), ( "Pizza", "Ingredient Sourcing", "Conventional") ])
      "E-Bike" "Battery Production" "Lithium Mining").1.info_message =
      "Production halted! Emissions critically high (4th warning)." := by
  decide

/-- C1 (corrected): after an accepted call the termination conditions are
evaluated only when every slot of the catalog is filled. With open slots the
status can end the game only through the escalator severe halt (and a
previously ended game stays ended). With all slots filled the evaluator runs
— even over an escalator halt — and classifies in the fixed priority order:
emissions above max, happiness below 40, negative budget, then the success
tiers by the exact 0.4 / 0.7 ratio comparisons. -/
theorem claim_C1 (g g2 : GameState) (p pr o : String)
    (h : select_process_option g p pr o = (g2, true)) :
    (all_filled g2.player_choices = false →
      (g2.game_state = "game_over" ↔
        (g.game_state = "game_over" ∨
          (g2.current_emissions > g2.SEVERE_EMISSION_THRESHOLD ∧ g.emission_warnings < 4)))) ∧
    (all_filled g2.player_choices = true →
      g2.game_state = "game_over" ∧
      (g2.current_emissions > g2.MAX_EMISSION_THRESHOLD →
        g2.info_message = "Game Over: Excessive Emissions! Your production emits too much CO2.") ∧
      (¬ g2.current_emissions > g2.MAX_EMISSION_THRESHOLD →
        g2.current_happiness < MIN_HAPPINESS_THRESHOLD →
        g2.info_message = "Game Over: Unhappy Customers! Only " ++ toString g2.current_happiness ++ "% happiness.") ∧
      (¬ g2.current_emissions > g2.MAX_EMISSION_THRESHOLD →
        ¬ g2.current_happiness < MIN_HAPPINESS_THRESHOLD →
        g2.budget < 0 →
        g2.info_message = "Game Over: Bankrupt! You\x27ve exceeded your budget.") ∧
      (¬ g2.current_emissions > g2.MAX_EMISSION_THRESHOLD →
        ¬ g2.current_happiness < MIN_HAPPINESS_THRESHOLD →
        ¬ g2.budget < 0 →
        (5 * g2.current_emissions < 2 * g2.MAX_EMISSION_THRESHOLD →
          g2.info_message = "Excellent! Highly sustainable product with low emissions!") ∧
        (¬ 5 * g2.current_emissions < 2 * g2.MAX_EMISSION_THRESHOLD →
          10 * g2.current_emissions < 7 * g2.MAX_EMISSION_THRESHOLD →
          g2.info_message = "Good job! Sustainable product within emissions targets.") ∧
        (¬ 5 * g2.current_emissions < 2 * g2.MAX_EMISSION_THRESHOLD →
          ¬ 10 * g2.current_emissions < 7 * g2.MAX_EMISSION_THRESHOLD →
          g2.info_message = "Product complete, but emissions are higher than ideal."))) := by
  cases hl : lookupOption p pr o with
  | none =>
    rw [select_invalid g p pr o hl] at h
    simp at h
  | some d =>
    by_cases hb : d.cost > g.budget
    · rw [select_poor g p pr o d hl hb] at h
      simp at h
    · rw [select_accepted_eq g p pr o d hl hb] at h
      have hg2 : afterCommit (commitState g p pr o d) = g2 := congrArg Prod.fst h
      subst hg2
      constructor
      · intro hnf
        rw [afterCommit_player_choices] at hnf
        rw [afterCommit_not_filled _ hnf]
        simp only [ch_game_state, ch_current_emissions, ch_severe_threshold,
          cw_game_state, cw_current_emissions, cw_severe_threshold,
          commitState_game_state, commitState_emission_warnings, commitState_severe_threshold]
        split_ifs with hc
        · simp only [hc]
          tauto
        · constructor
          · intro hgs
            exact Or.inl hgs
          · rintro (hgs | hcc)
            · exact hgs
            · exact absurd hcc hc
      · intro hf
        rw [afterCommit_player_choices] at hf
        rw [afterCommit_filled _ hf]
        have hf4 : all_filled (calculate_happiness
            (check_emission_warnings (commitState g p pr o d))).player_choices = true := by
          simpa using hf
        refine ⟨cg_game_over_of_filled _ hf4, ?_, ?_, ?_, ?_⟩
        · intro h1
          rw [cg_current_emissions, cg_max_threshold] at h1
          rw [cg_excessive _ h1]
          rfl
        · intro h1 h2
          rw [cg_current_emissions, cg_max_threshold] at h1
          rw [cg_current_happiness] at h2
          rw [cg_current_happiness, cg_unhappy _ h1 h2]
          rfl
        · intro h1 h2 h3
          rw [cg_current_emissions, cg_max_threshold] at h1
          rw [cg_current_happiness] at h2
          rw [cg_budget] at h3
          rw [cg_bankrupt _ h1 h2 h3]
          rfl
        · intro h1 h2 h3
          rw [cg_current_emissions, cg_max_threshold] at h1
          rw [cg_current_happiness] at h2
          rw [cg_budget] at h3
          simp only [cg_current_emissions, cg_max_threshold]
          rw [cg_success _ h1 h2 h3 hf4]
          refine ⟨?_, ?_, ?_⟩
          · intro hr1
            rw [if_pos hr1]
            rfl
          · intro hr1 hr2
            rw [if_neg hr1, if_pos hr2]
            rfl
          · intro hr1 hr2
            rw [if_neg hr1, if_neg hr2]
            rfl

/-- Witness for C1 at a concrete accepted non-filling call (Gas Oven on a
fresh session): open slots remain, and the game-over equivalence evaluates
with both sides false. -/
theorem claim_C1_witness :
    (select_process_option (reset_game "Growing Company" 10000 "Pizza")
        "Pizza" "Baking" "Gas Oven").1.game_state = "game_over" ↔
      ((reset_game "Growing Company" 10000 "Pizza").game_state = "game_over" ∨
        ((select_process_option (reset_game "Growing Company" 10000 "Pizza")
            "Pizza" "Baking" "Gas Oven").1.current_emissions >
          (select_process_option (reset_game "Growing Company" 10000 "Pizza")
            "Pizza" "Baking" "Gas Oven").1.SEVERE_EMISSION_THRESHOLD ∧
          (reset_game "Growing Company" 10000 "Pizza").emission_warnings < 4)) :=
  (claim_C1 (reset_game "Growing Company" 10000 "Pizza")
    ((select_process_option (reset_game "Growing Company" 10000 "Pizza")
      "Pizza" "Baking" "Gas Oven").1)
    "Pizza" "Baking" "Gas Oven" (by decide)).1 (by decide)

/-- C3 (corrected) counterexample: on a fresh 10000 session three selections
reach emissions 3200 (> warning 3000) at stage 1 with budget 7200, slot
(E-Bike, Assembly) holding "Manual". Re-applying that very option refunds and
re-commits to the same emissions, but the escalator fires again: stage
advances to 2 and the 5% fine (360) is charged — the state is not preserved. -/
theorem claim_C3_counterexample :
    getChoice
      (applySeq (reset_game "Growing Company" 10000 "Pizza")
        [ ( "Pizza", "Ingredient Sourcing", "Conventional"),
          ( "Pizza", "Baking", "Gas Oven"),
          ( "E-Bike", "Assembly", "Manual") ]).player_choices "E-Bike" "Assembly" =
      some "Manual" ∧
    (select_process_option
      (applySeq (reset_game "Growing Company" 10000 "Pizza")
        [ ( "Pizza", "Ingredient Sourcing", "Conventional"),
          ( "Pizza", "Baking", "Gas Oven"),
          ( "E-Bike", "Assembly", "Manual") ])
      "E-Bike" "Assembly" "Manual").2 = true ∧
    (select_process_option
      (applySeq (reset_game "Growing Company" 10000 "Pizza")
        [ ( "Pizza", "Ingredient Sourcing", "Conventional"),
          ( "Pizza", "Baking", "Gas Oven"),
          ( "E-Bike", "Assembly", "Manual") ])
      "E-Bike" "Assembly" "Manual").1.budget ≠
    (applySeq (reset_game "Growing Company" 10000 "Pizza")
      [ ( "Pizza", "Ingredient Sourcing", "Conventional"),
        ( "Pizza", "Baking", "Gas Oven"),
        ( "E-Bike", "Assembly", "Manual") ]).budget ∧
    (select_process_option
      (applySeq (reset_game "Growing Company" 10000 "Pizza")
        [ ( "Pizza", "Ingredient Sourcing", "Conventional"),
          ( "Pizza", "Baking", "Gas Oven"),
          ( "E-Bike", "Assembly", "Manual") ])
      "E-Bike" "Assembly" "Manual").1.emission_warnings ≠
    (applySeq (reset_game "Growing Company" 10000 "Pizza")
      [ ( "Pizza", "Ingredient Sourcing", "Conventional"),
        ( "Pizza", "Baking", "Gas Oven"),
        ( "E-Bike", "Assembly", "Manual") ]).emission_warnings := by
  decide

/-- C3 (corrected): re-applying the already-selected option is accepted and
preserves budget, emissions, selections, warning stage and status only when
the escalator stays quiet (emissions at or below the warning and severe
thresholds) and some slot is still open (so the termination evaluator does
not re-run); happiness is recomputed to the value its selections determine,
and the message is rewritten to the option info line. In general (emissions
above the warning threshold, or all slots filled) the call mutates the
state, as the counterexample shows. -/
theorem claim_C3 (g : GameState) (v : Slots) (p pr o : String) (d : ProcOption)
    (hv : g.player_choices = mkChoices v)
    (hsel : getChoice g.player_choices p pr = some o)
    (hd : lookupOption p pr o = some d)
    (hb : ¬ d.cost > g.budget)
    (hw : ¬ g.current_emissions > g.WARNING_EMISSION_THRESHOLD)
    (hs : ¬ g.current_emissions > g.SEVERE_EMISSION_THRESHOLD)
    (hf : all_filled g.player_choices = false) :
    (select_process_option g p pr o).2 = true ∧
    (select_process_option g p pr o).1.budget = g.budget ∧
    (select_process_option g p pr o).1.current_emissions = g.current_emissions ∧
    (select_process_option g p pr o).1.player_choices = g.player_choices ∧
    (select_process_option g p pr o).1.emission_warnings = g.emission_warnings ∧
    (select_process_option g p pr o).1.game_state = g.game_state ∧
    (select_process_option g p pr o).1.current_happiness = happinessValue g.player_choices ∧
    (select_process_option g p pr o).1.info_message =
      d.info ++ "\nCost: $" ++ toString d.cost ++ " | Emissions: " ++ toString d.emissions := by
  have hchoice : setChoice g.player_choices p pr o = g.player_choices := by
    rw [hv]
    rw [hv] at hsel
    rw [setChoice_self hd hsel]
  have hpc : previousCost g.player_choices p pr = d.cost := previousCost_of_some hsel hd
  have hpe : previousEmissions g.player_choices p pr = d.emissions :=
    previousEmissions_of_some hsel hd
  have hgc_em : (commitState g p pr o d).current_emissions = g.current_emissions := by
    rw [commitState_current_emissions, hpe]
    ring
  have hgc_b : (commitState g p pr o d).budget = g.budget := by
    rw [commitState_budget, hpc]
    ring
  have hgc_ch : (commitState g p pr o d).player_choices = g.player_choices := by
    rw [commitState_player_choices, hchoice]
  have hcw : check_emission_warnings (commitState g p pr o d) = commitState g p pr o d := by
    apply cw_calm
    · rw [hgc_em, commitState_warning_threshold]
      exact hw
    · rw [hgc_em, commitState_severe_threshold]
      exact hs
  have hgcnf : all_filled (commitState g p pr o d).player_choices = false := by
    rw [hgc_ch]
    exact hf
  rw [select_accepted_eq g p pr o d hd hb]
  rw [afterCommit_not_filled _ hgcnf]
  refine ⟨rfl, ?_, ?_, ?_, ?_, ?_, ?_, ?_⟩
  · rw [ch_budget, hcw, hgc_b]
  · rw [ch_current_emissions, hcw, hgc_em]
  · rw [ch_player_choices, hcw, hgc_ch]
  · rw [ch_emission_warnings, hcw, commitState_emission_warnings]
  · rw [ch_game_state, hcw, commitState_game_state]
  · rw [ch_current_happiness, hcw, hgc_ch]
  · rw [ch_info_message, hcw]
    rfl

/-- Witness for C3 at a concrete quiet re-apply: Solar is re-selected on the
slot that already holds it, with emissions 50 far below the thresholds and
eight slots open; the call is accepted and every listed field is preserved. -/
theorem claim_C3_witness :
    (select_process_option
      (applySeq (reset_game "Growing Company" 10000 "Pizza") [ ( "Pizza", "Baking", "Solar") ])
      "Pizza" "Baking" "Solar").2 = true ∧
    (select_process_option
      (applySeq (reset_game "Growing Company" 10000 "Pizza") [ ( "Pizza", "Baking", "Solar") ])
      "Pizza" "Baking" "Solar").1.budget =
      (applySeq (reset_game "Growing Company" 10000 "Pizza") [ ( "Pizza", "Baking", "Solar") ]).budget ∧
    (select_process_option
      (applySeq (reset_game "Growing Company" 10000 "Pizza") [ ( "Pizza", "Baking", "Solar") ])
      "Pizza" "Baking" "Solar").1.current_emissions =
      (applySeq (reset_game "Growing Company" 10000 "Pizza") [ ( "Pizza", "Baking", "Solar") ]).current_emissions ∧
    (select_process_option
      (applySeq (reset_game "Growing Company" 10000 "Pizza") [ ( "Pizza", "Baking", "Solar") ])
      "Pizza" "Baking" "Solar").1.player_choices =
      (applySeq (reset_game "Growing Company" 10000 "Pizza") [ ( "Pizza", "Baking", "Solar") ]).player_choices ∧
    (select_process_option
      (applySeq (reset_game "Growing Company" 10000 "Pizza") [ ( "Pizza", "Baking", "Solar") ])
      "Pizza" "Baking" "Solar").1.emission_warnings =
      (applySeq (reset_game "Growing Company" 10000 "Pizza") [ ( "Pizza", "Baking", "Solar") ]).emission_warnings ∧
    (select_process_option
      (applySeq (reset_game "Growing Company" 10000 "Pizza") [ ( "Pizza", "Baking", "Solar") ])
      "Pizza" "Baking" "Solar").1.game_state =
      (applySeq (reset_game "Growing Company" 10000 "Pizza") [ ( "Pizza", "Baking", "Solar") ]).game_state ∧
    (select_process_option
      (applySeq (reset_game "Growing Company" 10000 "Pizza") [ ( "Pizza", "Baking", "Solar") ])
      "Pizza" "Baking" "Solar").1.current_happiness =
      happinessValue
        (applySeq (reset_game "Growing Company" 10000 "Pizza") [ ( "Pizza", "Baking", "Solar") ]).player_choices ∧
    (select_process_option
      (applySeq (reset_game "Growing Company" 10000 "Pizza") [ ( "Pizza", "Baking", "Solar") ])
      "Pizza" "Baking" "Solar").1.info_message =
      "Zero emissions but weather dependent" ++ "\nCost: $" ++ toString (1500 : Int) ++
        " | Emissions: " ++ toString (50 : Int) :=
  claim_C3
    (applySeq (reset_game "Growing Company" 10000 "Pizza") [ ( "Pizza", "Baking", "Solar") ])
    ⟨none, none, some "Solar", none, none, none, none, none, none⟩
    "Pizza" "Baking" "Solar"
    ⟨1500, 50, 5, 3, "Zero emissions but weather dependent"⟩
    (by decide) (by decide) (by decide) (by decide) (by decide) (by decide) (by decide)

/-- C6 (corrected) counterexample: on a fresh 10000 session, four selections
leave budget 6400, emissions 2700, stage 1, slot (E-Bike, Assembly) holding
"Automated". Swapping to "Manual" raises emissions past the warning level,
so the escalator advances 1→2 and charges the 360 fine; swapping back
restores the emissions exactly, but the final budget is 6040, not 6400. -/
theorem claim_C6_counterexample :
    getChoice
      (applySeq (reset_game "Growing Company" 10000 "Pizza")
        [ ( "Pizza", "Ingredient Sourcing", "Conventional"),
          ( "Pizza", "Baking", "Gas Oven"),
          ( "E-Bike", "Assembly", "Manual"),
          ( "E-Bike", "Assembly", "Automated") ]).player_choices "E-Bike" "Assembly" =
      some "Automated" ∧
    (select_process_option
      (applySeq (reset_game "Growing Company" 10000 "Pizza")
        [ ( "Pizza", "Ingredient Sourcing", "Conventional"),
          ( "Pizza", "Baking", "Gas Oven"),
          ( "E-Bike", "Assembly", "Manual"),
          ( "E-Bike", "Assembly", "Automated") ])
      "E-Bike" "Assembly" "Manual").2 = true ∧
    (select_process_option
      (select_process_option
        (applySeq (reset_game "Growing Company" 10000 "Pizza")
          [ ( "Pizza", "Ingredient Sourcing", "Conventional"),
            ( "Pizza", "Baking", "Gas Oven"),
            ( "E-Bike", "Assembly", "Manual"),
            ( "E-Bike", "Assembly", "Automated") ])
        "E-Bike" "Assembly" "Manual").1
      "E-Bike" "Assembly" "Automated").2 = true ∧
    (select_process_option
      (select_process_option
        (applySeq (reset_game "Growing Company" 10000 "Pizza")
          [ ( "Pizza", "Ingredient Sourcing", "Conventional"),
            ( "Pizza", "Baking", "Gas Oven"),
            ( "E-Bike", "Assembly", "Manual"),
            ( "E-Bike", "Assembly", "Automated") ])
        "E-Bike" "Assembly" "Manual").1
      "E-Bike" "Assembly" "Automated").1.current_emissions =
    (applySeq (reset_game "Growing Company" 10000 "Pizza")
      [ ( "Pizza", "Ingredient Sourcing", "Conventional"),
        ( "Pizza", "Baking", "Gas Oven"),
        ( "E-Bike", "Assembly", "Manual"),
        ( "E-Bike", "Assembly", "Automated") ]).current_emissions ∧
    (select_process_option
      (select_process_option
        (applySeq (reset_game "Growing Company" 10000 "Pizza")
          [ ( "Pizza", "Ingredient Sourcing", "Conventional"),
            ( "Pizza", "Baking", "Gas Oven"),
            ( "E-Bike", "Assembly", "Manual"),
            ( "E-Bike", "Assembly", "Automated") ])
        "E-Bike" "Assembly" "Manual").1
      "E-Bike" "Assembly" "Automated").1.budget ≠
    (applySeq (reset_game "Growing Company" 10000 "Pizza")
      [ ( "Pizza", "Ingredient Sourcing", "Conventional"),
        ( "Pizza", "Baking", "Gas Oven"),
        ( "E-Bike", "Assembly", "Manual"),
        ( "E-Bike", "Assembly", "Automated") ]).budget := by
  decide

/-- C6 (corrected): the swap-and-swap-back round trip always restores the
emissions exactly, and restores the budget exactly provided the escalator
stays quiet during both calls (intermediate and original emissions at or
below the warning and severe thresholds); an intermediate warning transition
charges a fine that the round trip does not refund, as the counterexample
shows. -/
theorem claim_C6 (g : GameState) (v : Slots) (p pr a b : String) (da db : ProcOption)
    (hv : g.player_choices = mkChoices v)
    (hsel : getChoice g.player_choices p pr = some a)
    (hda : lookupOption p pr a = some da)
    (hdb : lookupOption p pr b = some db)
    (hbb : ¬ db.cost > g.budget)
    (hw1 : ¬ g.current_emissions - da.emissions + db.emissions > g.WARNING_EMISSION_THRESHOLD)
    (hs1 : ¬ g.current_emissions - da.emissions + db.emissions > g.SEVERE_EMISSION_THRESHOLD)
    (hw0 : ¬ g.current_emissions > g.WARNING_EMISSION_THRESHOLD)
    (hs0 : ¬ g.current_emissions > g.SEVERE_EMISSION_THRESHOLD) :
    (select_process_option g p pr b).2 = true ∧
    (select_process_option (select_process_option g p pr b).1 p pr a).2 = true ∧
    (select_process_option (select_process_option g p pr b).1 p pr a).1.budget = g.budget ∧
    (select_process_option (select_process_option g p pr b).1 p pr a).1.current_emissions =
      g.current_emissions := by
  have hpc1 : previousCost g.player_choices p pr = da.cost := previousCost_of_some hsel hda
  have hpe1 : previousEmissions g.player_choices p pr = da.emissions :=
    previousEmissions_of_some hsel hda
  have hcall1 : select_process_option g p pr b = (afterCommit (commitState g p pr b db), true) :=
    select_accepted_eq g p pr b db hdb hbb
  have hgc1_em : (commitState g p pr b db).current_emissions =
      g.current_emissions - da.emissions + db.emissions := by
    rw [commitState_current_emissions, hpe1]
  have hcw1 : check_emission_warnings (commitState g p pr b db) = commitState g p pr b db := by
    apply cw_calm
    · rw [hgc1_em, commitState_warning_threshold]
      exact hw1
    · rw [hgc1_em, commitState_severe_threshold]
      exact hs1
  have hg1_b : (select_process_option g p pr b).1.budget = g.budget + da.cost - db.cost := by
    rw [hcall1, afterCommit_budget, hcw1, commitState_budget, hpc1]
  have hg1_em : (select_process_option g p pr b).1.current_emissions =
      g.current_emissions - da.emissions + db.emissions := by
    rw [hcall1, afterCommit_current_emissions, hgc1_em]
  have hg1_ch : (select_process_option g p pr b).1.player_choices =
      setChoice (mkChoices v) p pr b := by
    rw [hcall1, afterCommit_player_choices, commitState_player_choices, hv]
  obtain ⟨hthM, hthS, hthW⟩ := select_thresholds g p pr b
  have hsel2 : getChoice (select_process_option g p pr b).1.player_choices p pr = some b := by
    rw [hg1_ch]
    exact getChoice_setChoice hdb
  have hb2 : ¬ da.cost > (select_process_option g p pr b).1.budget := by
    rw [hg1_b]
    omega
  have hpc2 : previousCost (select_process_option g p pr b).1.player_choices p pr = db.cost :=
    previousCost_of_some hsel2 hdb
  have hpe2 : previousEmissions (select_process_option g p pr b).1.player_choices p pr =
      db.emissions := previousEmissions_of_some hsel2 hdb
  have hcall2 := select_accepted_eq (select_process_option g p pr b).1 p pr a da hda hb2
  have hgc2_em : (commitState (select_process_option g p pr b).1 p pr a da).current_emissions =
      g.current_emissions := by
    rw [commitState_current_emissions, hpe2, hg1_em]
    ring
  have hcw2 : check_emission_warnings (commitState (select_process_option g p pr b).1 p pr a da) =
      commitState (select_process_option g p pr b).1 p pr a da := by
    apply cw_calm
    · rw [hgc2_em, commitState_warning_threshold, hthW]
      exact hw0
    · rw [hgc2_em, commitState_severe_threshold, hthS]
      exact hs0
  refine ⟨by rw [hcall1], by rw [hcall2], ?_, ?_⟩
  · rw [hcall2, afterCommit_budget, hcw2, commitState_budget, hpc2, hg1_b]
    ring
  · rw [hcall2, afterCommit_current_emissions, hgc2_em]

/-- Witness for C6 at a concrete quiet round trip: slot (Pizza, Baking)
holds Solar on a fresh 10000 session; swapping to Gas Oven and back keeps
emissions at 50 and budget at 8500. -/
theorem claim_C6_witness :
    (select_process_option
      (applySeq (reset_game "Growing Company" 10000 "Pizza") [ ( "Pizza", "Baking", "Solar") ])
      "Pizza" "Baking" "Gas Oven").2 = true ∧
    (select_process_option
      (select_process_option
        (applySeq (reset_game "Growing Company" 10000 "Pizza") [ ( "Pizza", "Baking", "Solar") ])
        "Pizza" "Baking" "Gas Oven").1
      "Pizza" "Baking" "Solar").2 = true ∧
    (select_process_option
      (select_process_option
        (applySeq (reset_game "Growing Company" 10000 "Pizza") [ ( "Pizza", "Baking", "Solar") ])
        "Pizza" "Baking" "Gas Oven").1
      "Pizza" "Baking" "Solar").1.budget =
      (applySeq (reset_game "Growing Company" 10000 "Pizza") [ ( "Pizza", "Baking", "Solar") ]).budget ∧
    (select_process_option
      (select_process_option
        (applySeq (reset_game "Growing Company" 10000 "Pizza") [ ( "Pizza", "Baking", "Solar") ])
        "Pizza" "Baking" "Gas Oven").1
      "Pizza" "Baking" "Solar").1.current_emissions =
      (applySeq (reset_game "Growing Company" 10000 "Pizza") [ ( "Pizza", "Baking", "Solar") ]).current_emissions :=
  claim_C6
    (applySeq (reset_game "Growing Company" 10000 "Pizza") [ ( "Pizza", "Baking", "Solar") ])
    ⟨none, none, some "Solar", none, none, none, none, none, none⟩
    "Pizza" "Baking" "Solar" "Gas Oven"
    ⟨1500, 50, 5, 3, "Zero emissions but weather dependent"⟩
    ⟨800, 1200, 3, 3, "Fast baking but burns fossil fuels"⟩
    (by decide) (by decide) (by decide) (by decide) (by decide)
    (by decide) (by decide) (by decide) (by decide)
